import Mathlib

/-!
# Verification of the fiscal-calendar KPI aggregation engine

Shallow embedding of the core of `kpidash_backend`:
* `app/services/metrics.py` — fiscal calendar, YTD aggregation, derived metrics, alerts;
* `app/services/period_utils.py` — quarter lookup;
* `app/services/kpi_service.py` — per-KPI department summary entries;
* `app/services/target_service.py` — single-row and bulk target upsert;
* `app/services/regional_service.py` — regional rollup.

Python `date` objects become `PyDate` (lexicographic comparison, as in
CPython).  Python `Decimal`/`float` values become `ℚ`; `Decimal.quantize`
with `ROUND_HALF_UP` becomes explicit half-away-from-zero rounding and
Python 3 `round` becomes half-to-even rounding.  Python `None` becomes
`Option.none`, and code paths that raise become `Except`.
-/

namespace KpiDash

/-- A calendar date as Python's `datetime.date`: compared lexicographically. -/
structure PyDate where
  year : Int
  month : Int
  day : Int
deriving DecidableEq, Repr

/-- Python `d1 <= d2` on dates (lexicographic on (year, month, day)). -/
def PyDate.le (a b : PyDate) : Prop :=
  a.year < b.year ∨ (a.year = b.year ∧ (a.month < b.month ∨ (a.month = b.month ∧ a.day ≤ b.day)))

instance (a b : PyDate) : Decidable (PyDate.le a b) := by
  unfold PyDate.le; exact inferInstance

/-- Python `min` on two dates (first argument wins ties). -/
def dateMin (a b : PyDate) : PyDate :=
  if PyDate.le a b then a else b

/-- `calendar.isleap` -/
def isLeapYear (y : Int) : Bool :=
  (y % 4 == 0 && y % 100 != 0) || y % 400 == 0

/-- Number of days in a month, as returned in `calendar.monthrange(y, m)[1]`. -/
def monthrangeDays (y : Int) (m : Int) : Int :=
  if m == 2 then (if isLeapYear y then 29 else 28)
  else if m == 4 || m == 6 || m == 9 || m == 11 then 30
  else 31

/-- Exact-arithmetic idealisation of `Decimal.quantize(..., ROUND_HALF_UP)`:
round to an integer, halves away from zero. -/
def halfUpInt (x : ℚ) : Int :=
  if 0 ≤ x then ⌊x + 1/2⌋ else -⌊-x + 1/2⌋

/-- `quantize(Decimal("0.01"), ROUND_HALF_UP)`: round to 2 decimal places. -/
def quantize2 (x : ℚ) : ℚ :=
  (halfUpInt (x * 100) : ℚ) / 100

/-- `quantize(Decimal("1"), ROUND_HALF_UP)`: round to an integer. -/
def quantize0 (x : ℚ) : ℚ :=
  (halfUpInt x : ℚ)

/-- Python 3 `round(x)` / `round(x, 0)`: round to an integer, halves to even. -/
def roundHalfEvenInt (x : ℚ) : Int :=
  let f := ⌊x⌋
  let frac := x - f
  if frac < 1/2 then f
  else if 1/2 < frac then f + 1
  else if f % 2 = 0 then f else f + 1

/-- Python 3 `round(x, 0)` as a rational. -/
def pyRound0 (x : ℚ) : ℚ := (roundHalfEvenInt x : ℚ)

/-- Python 3 `round(x, 1)`. -/
def pyRound1 (x : ℚ) : ℚ := (roundHalfEvenInt (x * 10) : ℚ) / 10

/-- Python `int(x)` on a number: truncation toward zero. -/
def pyInt (x : ℚ) : Int :=
  if 0 ≤ x then ⌊x⌋ else ⌈x⌉

/-! ## `app/services/metrics.py` — fiscal calendar -/

/-- `metrics.get_fiscal_year(target_date, start_month=9)`:
the year if the month is at or past the fiscal start month, else the prior year. -/
def get_fiscal_year (target_date : PyDate) (start_month : Int) : Int :=
  if start_month ≤ target_date.month then target_date.year else target_date.year - 1

/-- `metrics.get_fiscal_year_range(fiscal_year, start_month=9)`:
(first day of the fiscal year, last day of the month before the start month
in the following year). -/
def get_fiscal_year_range (fiscal_year : Int) (start_month : Int) : PyDate × PyDate :=
  let start_date : PyDate := ⟨fiscal_year, start_month, 1⟩
  if start_month == 1 then
    (start_date, ⟨fiscal_year, 12, 31⟩)
  else
    let end_year := fiscal_year + 1
    let end_month := start_month - 1
    let last_day := monthrangeDays end_year end_month
    (start_date, ⟨end_year, end_month, last_day⟩)

/-- The month-advance step of the `while` loop in `get_months_in_fiscal_year`:
first day of the next calendar month. -/
def nextMonthStart (current : PyDate) : PyDate :=
  if current.month == 12 then ⟨current.year + 1, 1, 1⟩
  else ⟨current.year, current.month + 1, 1⟩

/-- The `while current <= end_date` loop of `get_months_in_fiscal_year`,
with explicit fuel.  The fiscal window spans at most 12 months for any valid
start month, so any fuel ≥ 13 makes the fuel bound unreachable. -/
def monthsLoop : Nat → PyDate → PyDate → List PyDate
  | 0, _, _ => []
  | Nat.succ n, current, endDate =>
    if PyDate.le current endDate then
      current :: monthsLoop n (nextMonthStart current) endDate
    else []

/-- `metrics.get_months_in_fiscal_year(fiscal_year, up_to_month=None, start_month=9)`:
the list of month-start dates of the fiscal year, optionally clipped. -/
def get_months_in_fiscal_year (fiscal_year : Int) (up_to_month : Option PyDate)
    (start_month : Int) : List PyDate :=
  let r := get_fiscal_year_range fiscal_year start_month
  let endDate := match up_to_month with
    | some u => dateMin r.2 u
    | none => r.2
  monthsLoop 24 r.1 endDate

/-- `metrics.normalize_to_month_start(target_date)`. -/
def normalize_to_month_start (d : PyDate) : PyDate :=
  ⟨d.year, d.month, 1⟩

/-- `metrics.get_previous_year_month(target_date)`. -/
def get_previous_year_month (d : PyDate) : PyDate :=
  ⟨d.year - 1, d.month, 1⟩

/-! ## `app/services/metrics.py` — YTD aggregation

`calculate_ytd` receives a list of Python dicts.  A dict row is embedded as
`FactDict`: `date` is `none` when the key is absent or holds `None` (such a
row is skipped by the `if item_date and ...` guard); `value` is `none` when
the stored value is `None` (skipped; an absent key defaults to `0`, which
adds nothing, so it is observationally the same as skipping); `is_target`
defaults to `False` when absent, hence a plain `Bool`.  ISO-string dates are
parsed by the source before comparison, so they are embedded as dates. -/

structure FactDict where
  date : Option PyDate
  value : Option ℚ
  is_target : Bool
deriving DecidableEq, Repr

/-- `metrics.calculate_ytd(values, target_date, is_target)`: sum the `value`
of rows whose flag matches and whose date lies in
[fiscal-year start of `target_date`, `target_date`].  Always returns a
`Decimal`, starting from `Decimal("0")`. -/
def calculate_ytd (values : List FactDict) (target_date : PyDate) (is_target : Bool) : ℚ :=
  let fiscal_year := get_fiscal_year target_date 9
  let start_date := (get_fiscal_year_range fiscal_year 9).1
  values.foldl (fun total item =>
    if item.is_target != is_target then total
    else
      match item.date with
      | none => total
      | some item_date =>
        if PyDate.le start_date item_date ∧ PyDate.le item_date target_date then
          match item.value with
          | none => total
          | some v => total + v
        else total) 0

/-! ## `app/services/metrics.py` — derived metrics -/

/-- `metrics.calculate_customer_unit_price(sales, customers)`. -/
def calculate_customer_unit_price (sales : ℚ) (customers : Int) : Option ℚ :=
  if customers = 0 then none
  else some (quantize0 (sales / (customers : ℚ)))

/-- `metrics.calculate_achievement_rate(actual, target)`:
`None` when the target is zero, else `actual / target * 100` rounded to
2 decimal places (half up). -/
def calculate_achievement_rate (actual target : ℚ) : Option ℚ :=
  if target = 0 then none
  else some (quantize2 (actual / target * 100))

/-- `metrics.calculate_yoy_rate(current, previous)`:
`None` when the previous value is zero, else
`(current - previous) / previous * 100` rounded to 2 decimal places. -/
def calculate_yoy_rate (current previous : ℚ) : Option ℚ :=
  if previous = 0 then none
  else some (quantize2 ((current - previous) / previous * 100))

/-- The observable behaviour of `metrics.calculate_achievement_rate` when it
is invoked with Python `None` operands (the annotations say `Decimal`, but
Python does not enforce them).  `None == 0` is `False`, so a `None` target
falls through to `actual / target`, which raises `TypeError`; likewise a
`None` actual with a nonzero target raises `TypeError` at the division. -/
def calculate_achievement_rate_py (actual target : Option ℚ) : Except String (Option ℚ) :=
  match target with
  | none => Except.error "TypeError"
  | some t =>
    if t = 0 then Except.ok none
    else
      match actual with
      | none => Except.error "TypeError"
      | some a => Except.ok (some (quantize2 (a / t * 100)))

/-! ## `app/services/metrics.py` — alert classification -/

/-- `metrics.get_alert_level(achievement_rate)`. -/
def get_alert_level (achievement_rate : Option ℚ) : String :=
  match achievement_rate with
  | none => "none"
  | some r =>
    if 100 ≤ r then "none"
    else if 80 ≤ r then "warning"
    else "critical"

/-! ## `app/services/period_utils.py` -/

/-- `period_utils.get_quarter(month)`: fiscal quarter of a calendar month. -/
def get_quarter (month : Int) : Int :=
  let fiscal_month := (month - 9) % 12 + 1
  (fiscal_month - 1) / 3 + 1

/-- `period_utils.get_quarter_months(quarter)`: the dict lookup
`{1: (9,10,11), 2: (12,1,2), 3: (3,4,5), 4: (6,7,8)}.get(quarter, (9,10,11))`. -/
def get_quarter_months (quarter : Int) : Int × Int × Int :=
  if quarter == 1 then (9, 10, 11)
  else if quarter == 2 then (12, 1, 2)
  else if quarter == 3 then (3, 4, 5)
  else if quarter == 4 then (6, 7, 8)
  else (9, 10, 11)

/-- A row matches the YTD window: its flag equals the requested variant and
its date lies in [fiscal-year start of the as-of date, as-of date]. -/
def ytdMatches (target_date : PyDate) (is_target : Bool) (item : FactDict) : Bool :=
  let start_date := (get_fiscal_year_range (get_fiscal_year target_date 9) 9).1
  item.is_target == is_target &&
    match item.date with
    | some d => decide (PyDate.le start_date d) && decide (PyDate.le d target_date)
    | none => false

/-- The YTD operation as the specification words it
(`yearToDate(rows, asOfDate, isTarget) -> sum`): the same filter as the
code, but "returning an absent metric (null), not zero, when no matching
row exists in the window".  Used only to compare the code's behaviour with
the spec's wording. -/
def yearToDate_specified (values : List FactDict) (target_date : PyDate)
    (is_target : Bool) : Option ℚ :=
  let matching := values.filter (ytdMatches target_date is_target)
  if matching.isEmpty then none
  else some ((matching.map (fun item => item.value.getD 0)).sum)

/-! ## `app/services/kpi_service.py` — per-KPI department summary entry

`get_department_summary` fetches `kpi_values` rows for the department's
segments in the window [fiscal start, target month] plus the previous
year's month, then builds one result entry per KPI definition
(lines 111–165).  `KV` embeds one fetched row (all the selected columns
are non-null in these rows); the per-KPI entry construction is embedded
verbatim, including the `float(x) if x else None` conversions. -/

structure KV where
  kpi_id : String
  date : PyDate
  value : ℚ
  is_target : Bool
deriving DecidableEq, Repr

/-- View a fetched `kpi_values` row as the dict shape `calculate_ytd` consumes. -/
def KV.toFactDict (v : KV) : FactDict :=
  ⟨some v.date, some v.value, v.is_target⟩

/-- One element of the `kpis` list in the department-summary response. -/
structure KpiSummaryEntry where
  actual : Option ℚ
  target : Option ℚ
  ytd_actual : Option ℚ
  ytd_target : Option ℚ
  achievement_rate : Option ℚ
  yoy_rate : Option ℚ
  alert_level : String
deriving DecidableEq, Repr

/-- Python `float(x) if x else None` applied to an optional `Decimal`:
both `None` and exactly `0` are falsy and become `None`. -/
def floatIfTruthy (x : Option ℚ) : Option ℚ :=
  match x with
  | none => none
  | some v => if v = 0 then none else some v

/-- The per-KPI body of `kpi_service.get_department_summary`
(filtering by `kpi_id`, the single-month and YTD sums, the guarded
achievement/YoY rates, the alert level, and the response-field
conversions). -/
def summarize_kpi (all_values prev_year_values : List KV) (kpi_id : String)
    (target_month : PyDate) (include_ytd : Bool) : KpiSummaryEntry :=
  let kpi_values := all_values.filter (fun v => v.kpi_id == kpi_id)
  let kpi_prev_values := prev_year_values.filter (fun v => v.kpi_id == kpi_id)
  let monthly_actual := kpi_values.foldl
    (fun acc v => if v.date == target_month && !v.is_target then acc + v.value else acc) 0
  let monthly_target := kpi_values.foldl
    (fun acc v => if v.date == target_month && v.is_target then acc + v.value else acc) 0
  let ytd_actual := if include_ytd then
    calculate_ytd (kpi_values.map KV.toFactDict) target_month false else 0
  let ytd_target := if include_ytd then
    calculate_ytd (kpi_values.map KV.toFactDict) target_month true else 0
  let prev_year_actual := kpi_prev_values.foldl (fun acc v => acc + v.value) 0
  let achievement_rate :=
    if 0 < ytd_target then calculate_achievement_rate ytd_actual ytd_target else none
  let yoy_rate :=
    if 0 < prev_year_actual then calculate_yoy_rate monthly_actual prev_year_actual else none
  let alert_level := get_alert_level achievement_rate
  { actual := if monthly_actual = 0 then none else some monthly_actual
    target := if monthly_target = 0 then none else some monthly_target
    ytd_actual := if include_ytd then some ytd_actual else none
    ytd_target := if include_ytd then some ytd_target else none
    achievement_rate := floatIfTruthy achievement_rate
    yoy_rate := floatIfTruthy yoy_rate
    alert_level := alert_level }

/-! ## `app/services/target_service.py` — target upsert

The `kpi_values` fact table is embedded as an in-memory table with an
auto-increment integer primary key (`id` is unique and below `next_id`).
The Supabase persistence service is external to the repository; per the
interface contract, any of its calls can fail with a network error that
propagates as an exception.  Each embedded operation therefore takes a
`dbFail : Option String` oracle: `none` means the persistence calls for
this row succeed (and then the in-memory table gives their documented
semantics), `some msg` means a persistence call raises `msg`, leaving the
table unchanged.  Everything above that oracle is translated from the
source. -/

structure KpiValueRow where
  id : Nat
  segment_id : String
  kpi_id : String
  date : PyDate
  value : ℚ
  is_target : Bool
deriving DecidableEq, Repr

structure FactTable where
  rows : List KpiValueRow
  next_id : Nat
deriving DecidableEq, Repr

/-- The row filter of the existence query in `create_target_value`
(`eq segment_id, eq kpi_id, eq date, eq is_target=True`). -/
def matchesTargetKey (r : KpiValueRow) (segment_id kpi_id : String) (month : PyDate) : Bool :=
  r.segment_id == segment_id && r.kpi_id == kpi_id && r.date == month && r.is_target == true

/-- The well-formedness of the fact table that the persistence service
guarantees: primary-key ids are pairwise distinct and below the
auto-increment counter. -/
def FactTable.WellFormed (db : FactTable) : Prop :=
  db.rows.Pairwise (fun a b => a.id ≠ b.id) ∧ ∀ r ∈ db.rows, r.id < db.next_id

/-- The at-most-one-row-per-composite-identity invariant of the fact store. -/
def FactTable.UniqueIdentity (db : FactTable) : Prop :=
  ∀ s k m, (db.rows.filter (fun r => matchesTargetKey r s k m)).length ≤ 1

structure CreateResult where
  id : Nat
  is_created : Bool
deriving DecidableEq, Repr

/-- The existence query of `create_target_value`
(`select("id").eq(segment_id).eq(kpi_id).eq(date).eq(is_target, True)`). -/
def selectTargetRows (db : FactTable) (segment_id kpi_id : String) (month : PyDate) :
    List KpiValueRow :=
  db.rows.filter (fun r => matchesTargetKey r segment_id kpi_id month)

/-- The in-place update `update(data).eq("id", existing.data[0]["id"])`:
every row with the given primary key has its non-key columns replaced. -/
def updateRowsById (rows : List KpiValueRow) (i : Nat) (segment_id kpi_id : String)
    (month : PyDate) (value : ℚ) : List KpiValueRow :=
  rows.map (fun r =>
    if r.id == i then
      { r with segment_id := segment_id, kpi_id := kpi_id, date := month,
               value := value, is_target := true }
    else r)

/-- `target_service.create_target_value(supabase, segment_id, kpi_id, month, value)`:
normalize the month, look up an existing row by the composite identity,
update it in place if found (by primary key), insert otherwise; raise if
the write reports no affected row. -/
def create_target_value (db : FactTable) (dbFail : Option String)
    (segment_id kpi_id : String) (month : PyDate) (value : ℚ) :
    Except String (FactTable × CreateResult) :=
  let month := normalize_to_month_start month
  match dbFail with
  | some msg => Except.error msg
  | none =>
    match selectTargetRows db segment_id kpi_id month with
    | e :: _ =>
      let newRows := updateRowsById db.rows e.id segment_id kpi_id month value
      let responseData := newRows.filter (fun r => r.id == e.id)
      if responseData.isEmpty then Except.error "目標値の登録に失敗しました"
      else Except.ok ({ db with rows := newRows }, ⟨e.id, false⟩)
    | [] =>
      let newRow : KpiValueRow := ⟨db.next_id, segment_id, kpi_id, month, value, true⟩
      let responseData := [newRow]
      if responseData.isEmpty then Except.error "目標値の登録に失敗しました"
      else Except.ok (⟨db.rows ++ [newRow], db.next_id + 1⟩, ⟨db.next_id, true⟩)

/-- One row of the `targets` list passed to `bulk_upsert_targets`
(all four keys are supplied by every caller). -/
structure TargetInput where
  segment_id : String
  kpi_id : String
  month : PyDate
  value : ℚ
deriving DecidableEq, Repr

/-- The accumulated report of `bulk_upsert_targets`. -/
structure BulkResult where
  created_count : Nat
  updated_count : Nat
  errors : List String
deriving DecidableEq, Repr

/-- One iteration of the `for target in targets` loop of
`bulk_upsert_targets`: try the single-row upsert, bump the matching
counter, or catch the exception and append the formatted error. -/
def bulkStep (acc : FactTable × BulkResult) (input : Option String × TargetInput) :
    FactTable × BulkResult :=
  let t := input.2
  match create_target_value acc.1 input.1 t.segment_id t.kpi_id t.month t.value with
  | Except.ok (db2, res) =>
    if res.is_created then
      (db2, { acc.2 with created_count := acc.2.created_count + 1 })
    else
      (db2, { acc.2 with updated_count := acc.2.updated_count + 1 })
  | Except.error e =>
    (acc.1, { acc.2 with errors :=
      acc.2.errors ++ ["店舗 " ++ t.segment_id ++ ", KPI " ++ t.kpi_id ++ ": " ++ e] })

/-- `target_service.bulk_upsert_targets(supabase, targets)`: fold the
per-row upsert over the batch, starting from zero counts and no errors.
Each input row is paired with its persistence-failure oracle. -/
def bulk_upsert_targets (db : FactTable) (targets : List (Option String × TargetInput)) :
    FactTable × BulkResult :=
  targets.foldl bulkStep (db, ⟨0, 0, []⟩)

/-! ## `app/services/regional_service.py` — regional rollup

`get_regional_summary` is embedded from the point where all remote reads
have completed (regions, segments, store-region mappings, the two KPI ids,
and the three `kpi_values` row sets are the inputs); everything after that
is translated statement by statement.  Python dicts that are iterated are
embedded as insertion-ordered association lists with unique keys
(`dset`/`dget`); `regional_data`, which is only indexed by region id, is
embedded as a function from region ids, with its key set carried by the
regions list that created it. -/

/-- `d.get(k)` on an association-list dict. -/
def dget {α : Type} (d : List (String × α)) (k : String) : Option α :=
  (d.find? (fun p => p.1 == k)).map (fun p => p.2)

/-- `d.get(k, dflt)`. -/
def dgetD {α : Type} (d : List (String × α)) (k : String) (dflt : α) : α :=
  (dget d k).getD dflt

/-- `d[k] = v`: replace in place if the key exists, append otherwise
(python dicts preserve insertion order). -/
def dset {α : Type} (d : List (String × α)) (k : String) (v : α) : List (String × α) :=
  if d.any (fun p => p.1 == k) then
    d.map (fun p => if p.1 == k then (k, v) else p)
  else d ++ [(k, v)]

/-- A dict comprehension `{p[0]: p[1] for p in pairs}` (later keys win). -/
def buildDict {α : Type} (pairs : List (String × α)) : List (String × α) :=
  pairs.foldl (fun d p => dset d p.1 p.2) []

/-- `d[k] = d.get(k, 0) + v`. -/
def dadd (d : List (String × ℚ)) (k : String) (v : ℚ) : List (String × ℚ) :=
  dset d k (dgetD d k 0 + v)

structure Region where
  id : String
  name : String
deriving DecidableEq, Repr

structure Segment where
  id : String
  name : String
deriving DecidableEq, Repr

/-- A `kpi_values` row as fetched by `get_regional_summary`
(`kpi_id, segment_id, date, value`; the date is only used by the query
filters, which are upstream of the embedding). -/
structure RegRow where
  kpi_id : String
  segment_id : String
  value : Option ℚ
deriving DecidableEq, Repr

/-- `regional_service._safe_yoy_rate(current, previous)`: `None` when either
operand is falsy, else the 2-decimal YoY rate. -/
def safe_yoy_rate (current previous : ℚ) : Option ℚ :=
  if current = 0 || previous = 0 then none
  else calculate_yoy_rate current previous

/-- The per-store aggregation loop shared by the current, previous-year and
target row sets: route each row's `value or 0` into the sales dict or the
customers dict according to its KPI id (a `None` KPI id matches nothing). -/
def aggStores (rows : List RegRow) (sales_kpi customers_kpi : Option String) :
    List (String × ℚ) × List (String × ℚ) :=
  rows.foldl (fun acc v =>
    let value := v.value.getD 0
    if (some v.kpi_id : Option String) == sales_kpi then
      (dadd acc.1 v.segment_id value, acc.2)
    else if (some v.kpi_id : Option String) == customers_kpi then
      (acc.1, dadd acc.2 v.segment_id value)
    else acc) ([], [])

/-- The loop that re-keys per-store target sums by region
(`region_id = segment_to_region.get(seg_id); if region_id:` — a missing or
falsy region id drops the entry). -/
def regionalTargetAgg (store_vals : List (String × ℚ))
    (segment_to_region : List (String × String)) : List (String × ℚ) :=
  store_vals.foldl (fun d p =>
    match dget segment_to_region p.1 with
    | some region_id => if region_id = "" then d else dadd d region_id p.2
    | none => d) []

structure RegionTargets where
  target_sales : Option ℚ
  target_customers : Option Int
deriving DecidableEq, Repr

/-- The `targets_map` construction over
`set(regional_target_sales) | set(regional_target_customers)` (the set's
iteration order is unspecified in Python; the map is only read by key). -/
def buildTargetsMap (rts rtc : List (String × ℚ)) : List (String × RegionTargets) :=
  let all_region_ids :=
    (rts.map (fun p => p.1)) ++
      ((rtc.map (fun p => p.1)).filter (fun k => !(rts.map (fun p => p.1)).contains k))
  all_region_ids.foldl (fun m rid =>
    dset m rid
      ⟨dget rts rid,
       match dget rtc rid with
       | some v => if v = 0 then none else some (pyInt v)
       | none => none⟩) []

structure StoreData where
  segment_id : String
  segment_name : String
  sales : Option ℚ
  sales_previous_year : Option ℚ
  sales_yoy_rate : Option ℚ
  customers : Option Int
  customers_previous_year : Option Int
  customers_yoy_rate : Option ℚ
  unit_price : Option ℚ
  unit_price_previous_year : Option ℚ
deriving DecidableEq, Repr

/-- One `regional_data[region_id]` accumulator record. -/
structure RegionAcc where
  region_id : String
  region_name : String
  stores : List StoreData
  total_sales : ℚ
  total_sales_previous_year : ℚ
  total_customers : ℚ
  total_customers_previous_year : ℚ
deriving DecidableEq, Repr

structure RegionOut where
  region_id : String
  region_name : String
  total_sales : Option ℚ
  total_sales_previous_year : Option ℚ
  sales_yoy_rate : Option ℚ
  sales_yoy_diff : Option ℚ
  target_sales : Option ℚ
  target_diff : Option ℚ
  target_achievement_rate : Option ℚ
  total_customers : Option Int
  total_customers_previous_year : Option Int
  customers_yoy_rate : Option ℚ
  target_customers : Option Int
  avg_unit_price : Option ℚ
  avg_unit_price_previous_year : Option ℚ
  stores : List StoreData
deriving DecidableEq, Repr

/-- The inputs of `get_regional_summary` once every remote read has
completed. -/
structure RegionalInput where
  regions : List Region
  segments : List Segment
  mappings : List (String × String)
  sales_kpi_id : Option String
  customers_kpi_id : Option String
  current_rows : List RegRow
  prev_rows : List RegRow
  target_rows : List RegRow
deriving Repr

/-- The local state of `get_regional_summary` after the aggregation dicts
have been built and before the store loop runs. -/
structure RegionalCtx where
  regions : List Region
  segsDict : List (String × Segment)
  segment_to_region : List (String × String)
  store_sales : List (String × ℚ)
  store_sales_prev : List (String × ℚ)
  store_customers : List (String × ℚ)
  store_customers_prev : List (String × ℚ)
  targets_map : List (String × RegionTargets)
  unassigned_region_id : Option String

/-- Lines 244–399 of `get_regional_summary`: build every dict the store
loop reads, and locate the `"その他"` fallback region. -/
def mkRegionalCtx (inp : RegionalInput) : RegionalCtx :=
  let segsDict := buildDict (inp.segments.map (fun s => (s.id, s)))
  let segment_to_region := buildDict inp.mappings
  let storeTargets := aggStores inp.target_rows inp.sales_kpi_id inp.customers_kpi_id
  let rts := regionalTargetAgg storeTargets.1 segment_to_region
  let rtc := regionalTargetAgg storeTargets.2 segment_to_region
  let cur := aggStores inp.current_rows inp.sales_kpi_id inp.customers_kpi_id
  let prev := aggStores inp.prev_rows inp.sales_kpi_id inp.customers_kpi_id
  { regions := inp.regions
    segsDict := segsDict
    segment_to_region := segment_to_region
    store_sales := cur.1
    store_sales_prev := prev.1
    store_customers := cur.2
    store_customers_prev := prev.2
    targets_map := buildTargetsMap rts rtc
    unassigned_region_id := (inp.regions.find? (fun r => r.name == "その他")).map (fun r => r.id) }

/-- `segment_to_region.get(seg_id, unassigned_region_id)`. -/
def routeOf (ctx : RegionalCtx) (sid : String) : Option String :=
  match dget ctx.segment_to_region sid with
  | some r => some r
  | none => ctx.unassigned_region_id

/-- The key set of `regional_data` (one key per region). -/
def regionKeys (ctx : RegionalCtx) : List String :=
  ctx.regions.map (fun r => r.id)

/-- The `store_data` record built for one segment in the store loop. -/
def storeDataOf (ctx : RegionalCtx) (sid sname : String) : StoreData :=
  let sales := dgetD ctx.store_sales sid 0
  let sales_prev := dgetD ctx.store_sales_prev sid 0
  let customers := dgetD ctx.store_customers sid 0
  let customers_prev := dgetD ctx.store_customers_prev sid 0
  let unit_price := if 0 < customers then some (sales / customers) else none
  let unit_price_prev := if 0 < customers_prev then some (sales_prev / customers_prev) else none
  { segment_id := sid
    segment_name := sname
    sales := if 0 < sales then some sales else none
    sales_previous_year := if 0 < sales_prev then some sales_prev else none
    sales_yoy_rate := safe_yoy_rate sales sales_prev
    customers := if 0 < customers then some (pyInt customers) else none
    customers_previous_year := if 0 < customers_prev then some (pyInt customers_prev) else none
    customers_yoy_rate := safe_yoy_rate customers customers_prev
    unit_price :=
      match unit_price with
      | some v => if v = 0 then none else some (pyRound0 v)
      | none => none
    unit_price_previous_year :=
      match unit_price_prev with
      | some v => if v = 0 then none else some (pyRound0 v)
      | none => none }

/-- The initial `regional_data` dict: one empty accumulator per region. -/
def initRegionalData (regions : List Region) : String → RegionAcc :=
  regions.foldl
    (fun f r => fun rid =>
      if rid = r.id then ⟨r.id, r.name, [], 0, 0, 0, 0⟩ else f rid)
    (fun _ => ⟨"", "", [], 0, 0, 0, 0⟩)

/-- One iteration of the store loop: route the segment (falling back to the
unassigned region), skip it when the routed key is not a `regional_data`
key (in particular when the fallback region is absent), otherwise append
its store record and add its four values to the bucket totals. -/
def storeLoopStep (ctx : RegionalCtx) (rd : String → RegionAcc)
    (p : String × Segment) : String → RegionAcc :=
  let sid := p.1
  match routeOf ctx sid with
  | none => rd
  | some rid =>
    if (regionKeys ctx).contains rid then
      let sd := storeDataOf ctx sid p.2.name
      let old := rd rid
      fun x =>
        if x = rid then
          { old with
            stores := old.stores ++ [sd]
            total_sales := old.total_sales + dgetD ctx.store_sales sid 0
            total_sales_previous_year :=
              old.total_sales_previous_year + dgetD ctx.store_sales_prev sid 0
            total_customers := old.total_customers + dgetD ctx.store_customers sid 0
            total_customers_previous_year :=
              old.total_customers_previous_year + dgetD ctx.store_customers_prev sid 0 }
        else rd x
    else rd

/-- The `for seg_id, seg in segments.items()` store loop. -/
def storeLoop (ctx : RegionalCtx) : String → RegionAcc :=
  ctx.segsDict.foldl (storeLoopStep ctx) (initRegionalData ctx.regions)

/-- The per-region result record built in the second loop. -/
def regionOutOf (ctx : RegionalCtx) (acc : RegionAcc) (rg : Region) : RegionOut :=
  let total_sales := acc.total_sales
  let total_sales_prev := acc.total_sales_previous_year
  let total_customers := acc.total_customers
  let total_customers_prev := acc.total_customers_previous_year
  let target := dget ctx.targets_map rg.id
  let target_sales := target.bind (fun t => t.target_sales)
  let target_customers := target.bind (fun t => t.target_customers)
  let sales_yoy_rate := safe_yoy_rate total_sales total_sales_prev
  let sales_yoy_diff :=
    if total_sales ≠ 0 ∧ total_sales_prev ≠ 0 then some (total_sales - total_sales_prev)
    else none
  let customers_yoy_rate := safe_yoy_rate total_customers total_customers_prev
  let target_diff :=
    match target_sales with
    | some ts => if total_sales ≠ 0 ∧ ts ≠ 0 then some (total_sales - ts) else none
    | none => none
  let target_achievement_rate :=
    match target_sales with
    | some ts => if total_sales ≠ 0 ∧ ts ≠ 0 then some (total_sales / ts * 100) else none
    | none => none
  let avg_unit_price :=
    if 0 < total_customers then some (total_sales / total_customers) else none
  let avg_unit_price_prev :=
    if 0 < total_customers_prev then some (total_sales_prev / total_customers_prev) else none
  { region_id := rg.id
    region_name := rg.name
    total_sales := if 0 < total_sales then some total_sales else none
    total_sales_previous_year := if 0 < total_sales_prev then some total_sales_prev else none
    sales_yoy_rate := sales_yoy_rate
    sales_yoy_diff := sales_yoy_diff
    target_sales := target_sales
    target_diff := target_diff
    target_achievement_rate :=
      match target_achievement_rate with
      | some r => if r = 0 then none else some (pyRound1 r)
      | none => none
    total_customers := if 0 < total_customers then some (pyInt total_customers) else none
    total_customers_previous_year :=
      if 0 < total_customers_prev then some (pyInt total_customers_prev) else none
    customers_yoy_rate := customers_yoy_rate
    target_customers := target_customers
    avg_unit_price :=
      match avg_unit_price with
      | some v => if v = 0 then none else some (pyRound0 v)
      | none => none
    avg_unit_price_previous_year :=
      match avg_unit_price_prev with
      | some v => if v = 0 then none else some (pyRound0 v)
      | none => none
    stores := acc.stores }

/-- The accumulator of the second loop (`result_regions` plus the four
grand-total counters). -/
structure GrandAcc where
  result_regions : List RegionOut
  grand_total_sales : ℚ
  grand_total_sales_previous_year : ℚ
  grand_total_customers : ℚ
  grand_total_customers_previous_year : ℚ
deriving Repr

/-- One iteration of the second loop: skip regions with no stores,
otherwise emit the result record and add the bucket totals to the grand
totals. -/
def resultLoopStep (ctx : RegionalCtx) (rd : String → RegionAcc)
    (g : GrandAcc) (rg : Region) : GrandAcc :=
  let a := rd rg.id
  if a.stores.isEmpty then g
  else
    { result_regions := g.result_regions ++ [regionOutOf ctx a rg]
      grand_total_sales := g.grand_total_sales + a.total_sales
      grand_total_sales_previous_year :=
        g.grand_total_sales_previous_year + a.total_sales_previous_year
      grand_total_customers := g.grand_total_customers + a.total_customers
      grand_total_customers_previous_year :=
        g.grand_total_customers_previous_year + a.total_customers_previous_year }

/-- The `for region in regions` result loop. -/
def resultLoop (ctx : RegionalCtx) (rd : String → RegionAcc) : GrandAcc :=
  ctx.regions.foldl (resultLoopStep ctx rd) ⟨[], 0, 0, 0, 0⟩

/-- The `grand_total` record, present only when the grand sales total is
positive. -/
def mkGrandTotal (g : GrandAcc) : Option RegionOut :=
  if 0 < g.grand_total_sales then
    let gup :=
      if 0 < g.grand_total_customers then
        some (g.grand_total_sales / g.grand_total_customers)
      else none
    let gup_prev :=
      if 0 < g.grand_total_customers_previous_year then
        some (g.grand_total_sales_previous_year / g.grand_total_customers_previous_year)
      else none
    some
      { region_id := "total"
        region_name := "全体合計"
        total_sales := some g.grand_total_sales
        total_sales_previous_year :=
          if 0 < g.grand_total_sales_previous_year then
            some g.grand_total_sales_previous_year
          else none
        sales_yoy_rate := safe_yoy_rate g.grand_total_sales g.grand_total_sales_previous_year
        sales_yoy_diff :=
          if g.grand_total_sales_previous_year ≠ 0 then
            some (g.grand_total_sales - g.grand_total_sales_previous_year)
          else none
        target_sales := none
        target_diff := none
        target_achievement_rate := none
        total_customers :=
          if 0 < g.grand_total_customers then some (pyInt g.grand_total_customers) else none
        total_customers_previous_year :=
          if 0 < g.grand_total_customers_previous_year then
            some (pyInt g.grand_total_customers_previous_year)
          else none
        customers_yoy_rate :=
          safe_yoy_rate g.grand_total_customers g.grand_total_customers_previous_year
        target_customers := none
        avg_unit_price :=
          match gup with
          | some v => if v = 0 then none else some (pyRound0 v)
          | none => none
        avg_unit_price_previous_year :=
          match gup_prev with
          | some v => if v = 0 then none else some (pyRound0 v)
          | none => none
        stores := [] }
  else none

/-- The response of `get_regional_summary` (the constant period metadata
fields are omitted). -/
structure RegionalSummary where
  regions : List RegionOut
  grand_total : Option RegionOut
deriving Repr

/-- `regional_service.get_regional_summary`, from the fetched inputs to the
response. -/
def get_regional_summary (inp : RegionalInput) : RegionalSummary :=
  let ctx := mkRegionalCtx inp
  let rd := storeLoop ctx
  let g := resultLoop ctx rd
  { regions := g.result_regions, grand_total := mkGrandTotal g }

/-! ## Helper lemmas -/

lemma fiscal_year_range_nine (y : Int) :
    get_fiscal_year_range y 9 = (⟨y, 9, 1⟩, ⟨y + 1, 8, 31⟩) := rfl

lemma monthsLoop_cons {n : Nat} {c e : PyDate} (h : PyDate.le c e) :
    monthsLoop (n + 1) c e = c :: monthsLoop n (nextMonthStart c) e := by
  simp [monthsLoop, h]

lemma monthsLoop_nil {n : Nat} {c e : PyDate} (h : ¬ PyDate.le c e) :
    monthsLoop (n + 1) c e = [] := by
  simp [monthsLoop, h]

lemma foldl_cond_add {α : Type} (p : α → Bool) (f : α → ℚ) :
    ∀ (l : List α) (init : ℚ),
      l.foldl (fun acc x => if p x then acc + f x else acc) init =
        init + ((l.filter p).map f).sum := by
  intro l
  induction l with
  | nil => intro init; simp
  | cons x xs ih =>
    intro init
    by_cases h : p x
    · simp only [List.foldl_cons, List.filter_cons, h, if_pos, List.map_cons, List.sum_cons, ih]
      ring
    · simp only [List.foldl_cons, List.filter_cons, h, List.map_cons, ih]
      simp [h]

/-- The body of the `calculate_ytd` loop, rephrased through `ytdMatches`. -/
lemma calculate_ytd_body (target_date : PyDate) (is_target : Bool)
    (total : ℚ) (item : FactDict) :
    (if item.is_target != is_target then total
     else
       match item.date with
       | none => total
       | some item_date =>
         if PyDate.le (get_fiscal_year_range (get_fiscal_year target_date 9) 9).1 item_date ∧
             PyDate.le item_date target_date then
           match item.value with
           | none => total
           | some v => total + v
         else total) =
      (if ytdMatches target_date is_target item then total + item.value.getD 0 else total) := by
  rcases item with ⟨d, v, it⟩
  by_cases hf : it = is_target
  · subst hf
    cases d with
    | none => simp [ytdMatches]
    | some dd =>
      by_cases hle :
          PyDate.le (get_fiscal_year_range (get_fiscal_year target_date 9) 9).1 dd ∧
            PyDate.le dd target_date
      · cases v with
        | none => simp [ytdMatches, hle.1, hle.2]
        | some vv => simp [ytdMatches, hle.1, hle.2]
      · rcases Decidable.not_and_iff_or_not.mp hle with h | h <;>
          simp [ytdMatches, hle, h]
  · have hb : (it != is_target) = true := by
      simp [bne, hf]
    cases d <;> simp [ytdMatches, hb, hf]

/-! # Theorems for the claims -/

/-- C7: for every year `Y`, the fiscal-year range of `Y` is exactly
(September 1 of `Y`, August 31 of `Y+1`), and every date in that window has
fiscal year `Y`. -/
theorem fiscal_year_and_range_correct : ∀ y : Int,
    get_fiscal_year_range y 9 = (⟨y, 9, 1⟩, ⟨y + 1, 8, 31⟩) ∧
    ∀ d : PyDate, PyDate.le ⟨y, 9, 1⟩ d → PyDate.le d ⟨y + 1, 8, 31⟩ →
      get_fiscal_year d 9 = y := by
  intro y
  refine ⟨fiscal_year_range_nine y, ?_⟩
  intro d h1 h2
  obtain ⟨dy, dm, dd⟩ := d
  simp only [PyDate.le] at h1 h2
  simp only [get_fiscal_year]
  split <;> omega

/-- Witness for C7 at fiscal year 2024 and the date 2025-04-15. -/
theorem fiscal_year_and_range_correct_witness :
    get_fiscal_year_range 2024 9 = (⟨2024, 9, 1⟩, ⟨2024 + 1, 8, 31⟩) ∧
      get_fiscal_year ⟨2025, 4, 15⟩ 9 = 2024 :=
  ⟨(fiscal_year_and_range_correct 2024).1,
   (fiscal_year_and_range_correct 2024).2 ⟨2025, 4, 15⟩ (by decide)
     (by decide)⟩

/-- C9: for every year `Y`, `get_months_in_fiscal_year` without an up-to
bound returns exactly the 12 month starts from September 1 of `Y` through
August 1 of `Y+1`, in calendar order. -/
theorem months_in_fiscal_year_correct : ∀ y : Int,
    get_months_in_fiscal_year y none 9 =
      [⟨y, 9, 1⟩, ⟨y, 10, 1⟩, ⟨y, 11, 1⟩, ⟨y, 12, 1⟩, ⟨y + 1, 1, 1⟩, ⟨y + 1, 2, 1⟩,
       ⟨y + 1, 3, 1⟩, ⟨y + 1, 4, 1⟩, ⟨y + 1, 5, 1⟩, ⟨y + 1, 6, 1⟩, ⟨y + 1, 7, 1⟩,
       ⟨y + 1, 8, 1⟩] := by
  intro y
  have e31 : PyDate := ⟨y + 1, 8, 31⟩
  have hm9 : PyDate.le ⟨y, 9, 1⟩ ⟨y + 1, 8, 31⟩ := by simp [PyDate.le]
  have hm10 : PyDate.le ⟨y, 10, 1⟩ ⟨y + 1, 8, 31⟩ := by simp [PyDate.le]
  have hm11 : PyDate.le ⟨y, 11, 1⟩ ⟨y + 1, 8, 31⟩ := by simp [PyDate.le]
  have hm12 : PyDate.le ⟨y, 12, 1⟩ ⟨y + 1, 8, 31⟩ := by simp [PyDate.le]
  have hj1 : PyDate.le ⟨y + 1, 1, 1⟩ ⟨y + 1, 8, 31⟩ := by simp [PyDate.le]
  have hj2 : PyDate.le ⟨y + 1, 2, 1⟩ ⟨y + 1, 8, 31⟩ := by simp [PyDate.le]
  have hj3 : PyDate.le ⟨y + 1, 3, 1⟩ ⟨y + 1, 8, 31⟩ := by simp [PyDate.le]
  have hj4 : PyDate.le ⟨y + 1, 4, 1⟩ ⟨y + 1, 8, 31⟩ := by simp [PyDate.le]
  have hj5 : PyDate.le ⟨y + 1, 5, 1⟩ ⟨y + 1, 8, 31⟩ := by simp [PyDate.le]
  have hj6 : PyDate.le ⟨y + 1, 6, 1⟩ ⟨y + 1, 8, 31⟩ := by simp [PyDate.le]
  have hj7 : PyDate.le ⟨y + 1, 7, 1⟩ ⟨y + 1, 8, 31⟩ := by simp [PyDate.le]
  have hj8 : PyDate.le ⟨y + 1, 8, 1⟩ ⟨y + 1, 8, 31⟩ := by simp [PyDate.le]
  have hstop : ¬ PyDate.le ⟨y + 1, 9, 1⟩ ⟨y + 1, 8, 31⟩ := by simp [PyDate.le]
  show monthsLoop (23 + 1) ⟨y, 9, 1⟩ ⟨y + 1, 8, 31⟩ = _
  rw [monthsLoop_cons hm9]
  show _ :: monthsLoop (22 + 1) ⟨y, 10, 1⟩ ⟨y + 1, 8, 31⟩ = _
  rw [monthsLoop_cons hm10]
  show _ :: _ :: monthsLoop (21 + 1) ⟨y, 11, 1⟩ ⟨y + 1, 8, 31⟩ = _
  rw [monthsLoop_cons hm11]
  show _ :: _ :: _ :: monthsLoop (20 + 1) ⟨y, 12, 1⟩ ⟨y + 1, 8, 31⟩ = _
  rw [monthsLoop_cons hm12]
  show _ :: _ :: _ :: _ :: monthsLoop (19 + 1) ⟨y + 1, 1, 1⟩ ⟨y + 1, 8, 31⟩ = _
  rw [monthsLoop_cons hj1]
  show _ :: _ :: _ :: _ :: _ :: monthsLoop (18 + 1) ⟨y + 1, 2, 1⟩ ⟨y + 1, 8, 31⟩ = _
  rw [monthsLoop_cons hj2]
  show _ :: _ :: _ :: _ :: _ :: _ :: monthsLoop (17 + 1) ⟨y + 1, 3, 1⟩ ⟨y + 1, 8, 31⟩ = _
  rw [monthsLoop_cons hj3]
  show _ :: _ :: _ :: _ :: _ :: _ :: _ :: monthsLoop (16 + 1) ⟨y + 1, 4, 1⟩ ⟨y + 1, 8, 31⟩ = _
  rw [monthsLoop_cons hj4]
  show _ :: _ :: _ :: _ :: _ :: _ :: _ :: _ ::
      monthsLoop (15 + 1) ⟨y + 1, 5, 1⟩ ⟨y + 1, 8, 31⟩ = _
  rw [monthsLoop_cons hj5]
  show _ :: _ :: _ :: _ :: _ :: _ :: _ :: _ :: _ ::
      monthsLoop (14 + 1) ⟨y + 1, 6, 1⟩ ⟨y + 1, 8, 31⟩ = _
  rw [monthsLoop_cons hj6]
  show _ :: _ :: _ :: _ :: _ :: _ :: _ :: _ :: _ :: _ ::
      monthsLoop (13 + 1) ⟨y + 1, 7, 1⟩ ⟨y + 1, 8, 31⟩ = _
  rw [monthsLoop_cons hj7]
  show _ :: _ :: _ :: _ :: _ :: _ :: _ :: _ :: _ :: _ :: _ ::
      monthsLoop (12 + 1) ⟨y + 1, 8, 1⟩ ⟨y + 1, 8, 31⟩ = _
  rw [monthsLoop_cons hj8]
  show _ :: _ :: _ :: _ :: _ :: _ :: _ :: _ :: _ :: _ :: _ :: _ ::
      monthsLoop (11 + 1) ⟨y + 1, 9, 1⟩ ⟨y + 1, 8, 31⟩ = _
  rw [monthsLoop_nil hstop]

/-- C6: the alert classifier returns `"none"` at or above 100, `"warning"`
on [80, 100), `"critical"` strictly below 80, `"none"` on a null rate, and
nothing else. -/
theorem alert_level_correct :
    (∀ q : ℚ, 100 ≤ q → get_alert_level (some q) = "none") ∧
    (∀ q : ℚ, 80 ≤ q → q < 100 → get_alert_level (some q) = "warning") ∧
    (∀ q : ℚ, q < 80 → get_alert_level (some q) = "critical") ∧
    get_alert_level none = "none" ∧
    ∀ r : Option ℚ, get_alert_level r = "none" ∨ get_alert_level r = "warning" ∨
      get_alert_level r = "critical" := by
  refine ⟨?_, ?_, ?_, rfl, ?_⟩
  · intro q h
    simp [get_alert_level, h]
  · intro q h1 h2
    simp only [get_alert_level]
    rw [if_neg (by linarith), if_pos h1]
  · intro q h
    simp only [get_alert_level]
    rw [if_neg (by linarith), if_neg (by linarith)]
  · intro r
    cases r with
    | none => exact Or.inl rfl
    | some q =>
      simp only [get_alert_level]
      split
      · exact Or.inl rfl
      · split
        · exact Or.inr (Or.inl rfl)
        · exact Or.inr (Or.inr rfl)

/-- Witness for C6 at the boundary rates 100, 80 and 79.99. -/
theorem alert_level_correct_witness :
    get_alert_level (some 100) = "none" ∧ get_alert_level (some 80) = "warning" ∧
      get_alert_level (some (7999 / 100)) = "critical" :=
  ⟨alert_level_correct.1 100 (by norm_num),
   alert_level_correct.2.1 80 (by norm_num) (by norm_num),
   alert_level_correct.2.2.1 (7999 / 100) (by norm_num)⟩

/-- C10: the quarter-to-months lookup is total, maps 1..4 to the fiscal
quarter month triples, and falls back to the Q1 months on any other
input. -/
theorem quarter_months_lookup_correct :
    get_quarter_months 1 = (9, 10, 11) ∧ get_quarter_months 2 = (12, 1, 2) ∧
    get_quarter_months 3 = (3, 4, 5) ∧ get_quarter_months 4 = (6, 7, 8) ∧
    ∀ q : Int, q ≠ 1 → q ≠ 2 → q ≠ 3 → q ≠ 4 → get_quarter_months q = (9, 10, 11) := by
  refine ⟨rfl, rfl, rfl, rfl, ?_⟩
  intro q h1 h2 h3 h4
  simp [get_quarter_months, h1, h2, h3, h4]

/-- Witness for C10 at the out-of-range quarter 0. -/
theorem quarter_months_lookup_correct_witness :
    get_quarter_months 1 = (9, 10, 11) ∧ get_quarter_months 0 = (9, 10, 11) :=
  ⟨quarter_months_lookup_correct.1,
   quarter_months_lookup_correct.2.2.2.2 0 (by decide) (by decide) (by decide) (by decide)⟩

/-- C4 counterexample: calling the achievement-rate function with a null
actual and a nonzero target raises `TypeError` instead of returning null,
contradicting the claim that null operands yield null without exception. -/
theorem achievement_rate_null_actual_raises :
    calculate_achievement_rate_py none (some 100) = Except.error "TypeError" := rfl

/-- C4 (amended): the achievement rate is null exactly when the target is
zero; with non-null operands it is `actual / target × 100` rounded half-up
to 2 decimals and never raises; a null operand (unless the target is the
zero Decimal, which short-circuits to null) raises `TypeError`. -/
theorem achievement_rate_amended :
    (∀ a t : ℚ, calculate_achievement_rate_py (some a) (some t) =
        Except.ok (calculate_achievement_rate a t)) ∧
    (∀ a t : ℚ, t ≠ 0 → calculate_achievement_rate a t = some (quantize2 (a / t * 100))) ∧
    (∀ a : ℚ, calculate_achievement_rate a 0 = none) ∧
    (∀ t : ℚ, t ≠ 0 → calculate_achievement_rate_py none (some t) = Except.error "TypeError") ∧
    calculate_achievement_rate_py none (some 0) = Except.ok none ∧
    (∀ x : Option ℚ, calculate_achievement_rate_py x none = Except.error "TypeError") := by
  refine ⟨?_, ?_, ?_, ?_, rfl, ?_⟩
  · intro a t
    by_cases h : t = 0 <;>
      simp [calculate_achievement_rate_py, calculate_achievement_rate, h]
  · intro a t h
    simp [calculate_achievement_rate, h]
  · intro a
    simp [calculate_achievement_rate]
  · intro t h
    simp [calculate_achievement_rate_py, h]
  · intro x
    cases x <;> rfl

/-- Witness for C4 (amended) at actual 50, target 100, and at a null actual
with target 5. -/
theorem achievement_rate_amended_witness :
    calculate_achievement_rate 50 100 = some 50 ∧
      calculate_achievement_rate_py none (some 5) = Except.error "TypeError" := by
  constructor
  · rw [achievement_rate_amended.2.1 50 100 (by norm_num)]
    norm_num [quantize2, halfUpInt]
  · exact achievement_rate_amended.2.2.2.1 5 (by norm_num)

/-- C1 counterexample: on the empty row list the code's YTD aggregation
returns the Decimal 0, while the claim requires an absent metric (null) —
`yearToDate_specified` transcribes the claim's wording. -/
theorem calculate_ytd_empty_returns_zero :
    calculate_ytd [] ⟨2024, 11, 1⟩ false = 0 ∧
      yearToDate_specified [] ⟨2024, 11, 1⟩ false = none := ⟨rfl, rfl⟩

/-- C1 (amended): the YTD aggregation sums `value` over exactly the rows
whose flag matches the requested variant and whose date lies in the window
from the fiscal-year start of the as-of date through the as-of date
inclusive; it returns the Decimal 0 — not null — when no row matches. -/
theorem calculate_ytd_amended :
    ∀ (values : List FactDict) (target_date : PyDate) (is_target : Bool),
      calculate_ytd values target_date is_target =
        ((values.filter (ytdMatches target_date is_target)).map
          (fun item => item.value.getD 0)).sum := by
  intro values t flag
  show values.foldl _ 0 = _
  rw [List.foldl_ext _ (fun acc x => if ytdMatches t flag x then acc + x.value.getD 0 else acc)
    0 (fun a b _ => calculate_ytd_body t flag a b)]
  rw [foldl_cond_add]
  simp

/-- C5 counterexample: a KPI whose only actual fact row in the target
month carries the value 0 is reported with `actual = null`, not 0
(`float(monthly_actual) if monthly_actual else None` collapses a zero sum
to null). -/
theorem department_summary_zero_actual_reported_null :
    (summarize_kpi [⟨"k1", ⟨2024, 11, 1⟩, 0, false⟩] [] "k1" ⟨2024, 11, 1⟩ true).actual =
      none := by norm_num [summarize_kpi]

/-- C5 (amended): in a department-summary entry the monthly actual and
target fields report the matching-row sum but conflate an exact-zero sum
with absence (null); the YTD fields always report the computed sum, zero
included; a zero YTD target yields a null achievement rate and alert
`"none"` without raising; a zero YTD actual against a positive target
yields achievement rate exactly 0, which is reported as null while the
alert level is computed from the 0 rate as `"critical"`. -/
theorem summarize_kpi_amended :
    ∀ (all_values prev_values : List KV) (kpi_id : String) (m : PyDate),
      ((summarize_kpi all_values prev_values kpi_id m true).actual =
        (if ((all_values.filter
              (fun v => (v.date == m && !v.is_target) && v.kpi_id == kpi_id)).map
              (fun v => v.value)).sum = 0 then none
         else some ((all_values.filter
              (fun v => (v.date == m && !v.is_target) && v.kpi_id == kpi_id)).map
              (fun v => v.value)).sum)) ∧
      ((summarize_kpi all_values prev_values kpi_id m true).target =
        (if ((all_values.filter
              (fun v => (v.date == m && v.is_target) && v.kpi_id == kpi_id)).map
              (fun v => v.value)).sum = 0 then none
         else some ((all_values.filter
              (fun v => (v.date == m && v.is_target) && v.kpi_id == kpi_id)).map
              (fun v => v.value)).sum)) ∧
      ((summarize_kpi all_values prev_values kpi_id m true).ytd_actual =
        some (calculate_ytd ((all_values.filter (fun v => v.kpi_id == kpi_id)).map
          KV.toFactDict) m false)) ∧
      ((summarize_kpi all_values prev_values kpi_id m true).ytd_target =
        some (calculate_ytd ((all_values.filter (fun v => v.kpi_id == kpi_id)).map
          KV.toFactDict) m true)) ∧
      (calculate_ytd ((all_values.filter (fun v => v.kpi_id == kpi_id)).map
          KV.toFactDict) m true = 0 →
        (summarize_kpi all_values prev_values kpi_id m true).achievement_rate = none ∧
        (summarize_kpi all_values prev_values kpi_id m true).alert_level = "none") ∧
      (0 < calculate_ytd ((all_values.filter (fun v => v.kpi_id == kpi_id)).map
          KV.toFactDict) m true →
        calculate_ytd ((all_values.filter (fun v => v.kpi_id == kpi_id)).map
          KV.toFactDict) m false = 0 →
        (summarize_kpi all_values prev_values kpi_id m true).achievement_rate = none ∧
        (summarize_kpi all_values prev_values kpi_id m true).alert_level = "critical") := by
  intro av pv k m
  have key : ∀ pmon : KV → Bool,
      (av.filter (fun v => v.kpi_id == k)).foldl
        (fun acc v => if pmon v then acc + v.value else acc) 0 =
        ((av.filter (fun v => pmon v && v.kpi_id == k)).map (fun v => v.value)).sum := by
    intro pmon
    rw [foldl_cond_add, List.filter_filter]
    simp
  refine ⟨?_, ?_, rfl, rfl, ?_, ?_⟩
  · simp only [summarize_kpi]
    rw [key (fun v => v.date == m && !v.is_target)]
  · simp only [summarize_kpi]
    rw [key (fun v => v.date == m && v.is_target)]
  · intro h0
    constructor
    · simp only [summarize_kpi]
      rw [h0]
      norm_num [floatIfTruthy]
    · simp only [summarize_kpi]
      rw [h0]
      norm_num [get_alert_level]
  · intro hpos h0
    have hTne : calculate_ytd ((av.filter (fun v => v.kpi_id == k)).map KV.toFactDict) m true ≠
        0 := fun h => absurd (h ▸ hpos) (lt_irrefl 0)
    have hrate : calculate_achievement_rate 0
        (calculate_ytd ((av.filter (fun v => v.kpi_id == k)).map KV.toFactDict) m true) =
        some 0 := by
      simp only [calculate_achievement_rate]
      rw [if_neg hTne]
      norm_num [quantize2, halfUpInt]
    constructor
    · simp only [summarize_kpi, if_true]
      rw [if_pos hpos, h0, hrate]
      simp [floatIfTruthy]
    · simp only [summarize_kpi, if_true]
      rw [if_pos hpos, h0, hrate]
      norm_num [get_alert_level]

/-- Witness for C5 (amended): one actual row of 5 in the target month, no
target rows; the YTD target is 0, so the achievement rate is null and the
alert level `"none"`. -/
theorem summarize_kpi_amended_witness :
    (summarize_kpi [⟨"k", ⟨2024, 11, 1⟩, 5, false⟩] [] "k" ⟨2024, 11, 1⟩ true).achievement_rate =
        none ∧
      (summarize_kpi [⟨"k", ⟨2024, 11, 1⟩, 5, false⟩] [] "k" ⟨2024, 11, 1⟩ true).alert_level =
        "none" :=
  (summarize_kpi_amended [⟨"k", ⟨2024, 11, 1⟩, 5, false⟩] [] "k" ⟨2024, 11, 1⟩).2.2.2.2.1
    (by decide)

/-! ## Helper lemmas for the target upsert -/

lemma matchesTargetKey_mk (i : Nat) (s k : String) (m : PyDate) (v : ℚ) :
    matchesTargetKey ⟨i, s, k, m, v, true⟩ s k m = true := by
  simp [matchesTargetKey]

lemma updateRowsById_append (a b : List KpiValueRow) (i : Nat) (s k : String)
    (m : PyDate) (v : ℚ) :
    updateRowsById (a ++ b) i s k m v =
      updateRowsById a i s k m v ++ updateRowsById b i s k m v :=
  List.map_append _ _ _

lemma updateRowsById_id_of_ne {rows : List KpiValueRow} {i : Nat}
    (s k : String) (m : PyDate) (v : ℚ) (h : ∀ r ∈ rows, r.id ≠ i) :
    updateRowsById rows i s k m v = rows := by
  unfold updateRowsById
  conv_rhs => rw [← List.map_id rows]
  apply List.map_congr_left
  intro a ha
  have hne : (a.id == i) = false := by simpa using h a ha
  simp [hne]

lemma updateRowsById_resp_ne_nil {rows : List KpiValueRow} {e : KpiValueRow}
    (he : e ∈ rows) (s k : String) (m : PyDate) (v : ℚ) :
    (updateRowsById rows e.id s k m v).filter (fun r => r.id == e.id) ≠ [] := by
  intro hnil
  have hmem : (⟨e.id, s, k, m, v, true⟩ : KpiValueRow) ∈ updateRowsById rows e.id s k m v := by
    unfold updateRowsById
    refine List.mem_map.mpr ⟨e, he, ?_⟩
    simp
  have hfil : (⟨e.id, s, k, m, v, true⟩ : KpiValueRow) ∈
      (updateRowsById rows e.id s k m v).filter (fun r => r.id == e.id) :=
    List.mem_filter.mpr ⟨hmem, by simp⟩
  rw [hnil] at hfil
  exact absurd hfil (List.not_mem_nil _)

/-- Equation lemma: `create_target_value` on a hit of the existence query. -/
lemma create_target_value_update_eq {db : FactTable} {s k : String} {m : PyDate}
    {v : ℚ} {e : KpiValueRow} {rest : List KpiValueRow}
    (hexist : selectTargetRows db s k (normalize_to_month_start m) = e :: rest)
    (hresp : ((updateRowsById db.rows e.id s k (normalize_to_month_start m) v).filter
      (fun r => r.id == e.id)).isEmpty = false) :
    create_target_value db none s k m v =
      Except.ok
        ({ db with rows := updateRowsById db.rows e.id s k (normalize_to_month_start m) v },
         ⟨e.id, false⟩) := by
  simp only [create_target_value]
  rw [hexist]
  simp [hresp]

/-- Equation lemma: `create_target_value` on a miss of the existence query. -/
lemma create_target_value_insert_eq {db : FactTable} {s k : String} {m : PyDate}
    {v : ℚ} (hexist : selectTargetRows db s k (normalize_to_month_start m) = []) :
    create_target_value db none s k m v =
      Except.ok
        (⟨db.rows ++ [⟨db.next_id, s, k, normalize_to_month_start m, v, true⟩],
          db.next_id + 1⟩,
         ⟨db.next_id, true⟩) := by
  simp only [create_target_value]
  rw [hexist]
  simp

/-- With succeeding persistence calls, the single-row upsert never raises. -/
lemma create_target_value_none_ok (db : FactTable) (s k : String) (m : PyDate) (v : ℚ) :
    ∃ p, create_target_value db none s k m v = Except.ok p := by
  cases hexist : selectTargetRows db s k (normalize_to_month_start m) with
  | nil => exact ⟨_, create_target_value_insert_eq hexist⟩
  | cons e rest =>
    have hmem : e ∈ db.rows := by
      have : e ∈ selectTargetRows db s k (normalize_to_month_start m) := by
        rw [hexist]; exact List.mem_cons_self _ _
      exact (List.mem_filter.mp this).1
    have hne := updateRowsById_resp_ne_nil hmem s k (normalize_to_month_start m) v
    exact ⟨_, create_target_value_update_eq hexist (by
      rw [List.isEmpty_eq_false_iff_exists_mem]
      exact List.exists_mem_of_ne_nil _ hne)⟩

/-- C2: on a well-formed fact table satisfying the at-most-one-row
invariant, upserting the same (segment, kpi, month, value) twice leaves
exactly one fact row with that composite identity, holding the value; the
second call succeeds, reports `is_created = false`, and changes nothing. -/
theorem create_target_value_idempotent :
    ∀ (db : FactTable) (s k : String) (m : PyDate) (v : ℚ),
      db.WellFormed → db.UniqueIdentity →
      ∃ db1 r1 db2 r2,
        create_target_value db none s k m v = Except.ok (db1, r1) ∧
        create_target_value db1 none s k m v = Except.ok (db2, r2) ∧
        r2.is_created = false ∧ db2.rows = db1.rows ∧
        (db1.rows.filter (fun r =>
          matchesTargetKey r s k (normalize_to_month_start m))).length = 1 ∧
        ∀ r ∈ db1.rows.filter (fun r =>
          matchesTargetKey r s k (normalize_to_month_start m)), r.value = v := by
  intro db s k m v hwf huniq
  obtain ⟨hids, hlt⟩ := hwf
  cases hexist : selectTargetRows db s k (normalize_to_month_start m) with
  | nil =>
    set nw : KpiValueRow := ⟨db.next_id, s, k, normalize_to_month_start m, v, true⟩ with hnw
    have h1 := create_target_value_insert_eq (v := v) hexist
    have hfilnil : db.rows.filter
        (fun r => matchesTargetKey r s k (normalize_to_month_start m)) = [] := hexist
    have hkeynw : matchesTargetKey nw s k (normalize_to_month_start m) = true := by
      rw [hnw]; exact matchesTargetKey_mk _ _ _ _ _
    have hfil1 : (db.rows ++ [nw]).filter
        (fun r => matchesTargetKey r s k (normalize_to_month_start m)) = [nw] := by
      rw [List.filter_append, hfilnil, List.nil_append]
      simp [hkeynw]
    have hsel1 : selectTargetRows ⟨db.rows ++ [nw], db.next_id + 1⟩ s k
        (normalize_to_month_start m) = nw :: [] := hfil1
    have hidsne : ∀ r ∈ db.rows ++ [nw], r.id ≠ nw.id → True := fun _ _ _ => trivial
    have hndb : ∀ r ∈ db.rows, r.id ≠ nw.id := by
      intro r hr
      have h := Nat.ne_of_lt (hlt r hr)
      simpa [hnw] using h
    have hupd : updateRowsById (db.rows ++ [nw]) nw.id s k (normalize_to_month_start m) v =
        db.rows ++ [nw] := by
      rw [updateRowsById_append, updateRowsById_id_of_ne s k _ v hndb]
      congr 1
      unfold updateRowsById
      simp [hnw]
    have hrdb : db.rows.filter (fun r => r.id == nw.id) = [] := by
      rw [List.filter_eq_nil_iff]
      intro r hr
      simpa using hndb r hr
    have hresp1 : ((updateRowsById (db.rows ++ [nw]) nw.id s k (normalize_to_month_start m)
        v).filter (fun r => r.id == nw.id)).isEmpty = false := by
      rw [hupd, List.filter_append, hrdb, List.nil_append]
      simp
    have h2 := create_target_value_update_eq hsel1 hresp1
    rw [hupd] at h2
    refine ⟨⟨db.rows ++ [nw], db.next_id + 1⟩, ⟨db.next_id, true⟩,
      ⟨db.rows ++ [nw], db.next_id + 1⟩, ⟨nw.id, false⟩, h1, h2, rfl, rfl, ?_, ?_⟩
    · rw [hfil1]
      rfl
    · intro r hr
      rw [hfil1] at hr
      have : r = nw := List.mem_singleton.mp hr
      rw [this, hnw]
  | cons e rest =>
    have hmemf : e ∈ db.rows.filter
        (fun r => matchesTargetKey r s k (normalize_to_month_start m)) := by
      have : e ∈ selectTargetRows db s k (normalize_to_month_start m) := by
        rw [hexist]; exact List.mem_cons_self _ _
      exact this
    have hkey : matchesTargetKey e s k (normalize_to_month_start m) = true :=
      (List.mem_filter.mp hmemf).2
    have hmemrows : e ∈ db.rows := (List.mem_filter.mp hmemf).1
    have hrest : rest = [] := by
      have hlen := huniq s k (normalize_to_month_start m)
      have : (e :: rest).length ≤ 1 := by
        rw [← hexist]
        exact hlen
      simp only [List.length_cons] at this
      exact List.eq_nil_of_length_eq_zero (by omega)
    obtain ⟨l1, l2, hsplit⟩ := List.append_of_mem hmemrows
    have hpw : (l1 ++ e :: l2).Pairwise (fun a b => a.id ≠ b.id) := hsplit ▸ hids
    have hl1ne : ∀ r ∈ l1, r.id ≠ e.id := by
      intro r hr
      exact (List.pairwise_append.mp hpw).2.2 r hr e (List.mem_cons_self _ _)
    have hl2ne : ∀ r ∈ l2, r.id ≠ e.id := by
      intro r hr
      have := (List.pairwise_cons.mp (List.pairwise_append.mp hpw).2.1).1 r hr
      exact fun hh => this hh.symm
    have hfe : (l1 ++ e :: l2).filter
        (fun r => matchesTargetKey r s k (normalize_to_month_start m)) = [e] := by
      rw [← hsplit]
      have : selectTargetRows db s k (normalize_to_month_start m) = [e] := by
        rw [hexist, hrest]
      exact this
    have hf12 : l1.filter (fun r => matchesTargetKey r s k (normalize_to_month_start m)) = []
        ∧ l2.filter (fun r => matchesTargetKey r s k (normalize_to_month_start m)) = [] := by
      have hc : (e :: l2).filter (fun r => matchesTargetKey r s k
          (normalize_to_month_start m)) =
          e :: l2.filter (fun r => matchesTargetKey r s k (normalize_to_month_start m)) := by
        rw [List.filter_cons]
        simp [hkey]
      rw [List.filter_append, hc] at hfe
      have hlen := congrArg List.length hfe
      simp only [List.length_append, List.length_cons, List.length_nil] at hlen
      constructor
      · exact List.eq_nil_of_length_eq_zero (by omega)
      · exact List.eq_nil_of_length_eq_zero (by omega)
    set e' : KpiValueRow := ⟨e.id, s, k, normalize_to_month_start m, v, true⟩ with he'
    have hkey' : matchesTargetKey e' s k (normalize_to_month_start m) = true := by
      rw [he']; exact matchesTargetKey_mk _ _ _ _ _
    have hupd : updateRowsById db.rows e.id s k (normalize_to_month_start m) v =
        l1 ++ e' :: l2 := by
      rw [hsplit, updateRowsById_append, updateRowsById_id_of_ne s k _ v hl1ne]
      congr 1
      unfold updateRowsById
      rw [List.map_cons]
      congr 1
      · simp [he']
      · exact updateRowsById_id_of_ne s k _ v hl2ne
    have hl1r : l1.filter (fun r => r.id == e.id) = [] := by
      rw [List.filter_eq_nil_iff]
      intro r hr
      simpa using hl1ne r hr
    have hl2r : l2.filter (fun r => r.id == e.id) = [] := by
      rw [List.filter_eq_nil_iff]
      intro r hr
      simpa using hl2ne r hr
    have hresp : ((updateRowsById db.rows e.id s k (normalize_to_month_start m) v).filter
        (fun r => r.id == e.id)).isEmpty = false := by
      rw [hupd, List.filter_append, hl1r, List.nil_append, List.filter_cons]
      have : (e'.id == e.id) = true := by rw [he']; simp
      rw [this]
      simp
    have h1 := create_target_value_update_eq hexist hresp
    rw [hupd] at h1
    -- second call on db1 = ⟨l1 ++ e' :: l2, db.next_id⟩
    have hfe1 : (l1 ++ e' :: l2).filter
        (fun r => matchesTargetKey r s k (normalize_to_month_start m)) = [e'] := by
      rw [List.filter_append, hf12.1, List.nil_append, List.filter_cons, hkey']
      simp [hf12.2]
    have hsel2 : selectTargetRows ⟨l1 ++ e' :: l2, db.next_id⟩ s k
        (normalize_to_month_start m) = e' :: [] := hfe1
    have hl1ne' : ∀ r ∈ l1, r.id ≠ e'.id := by
      intro r hr
      rw [he']
      exact hl1ne r hr
    have hl2ne' : ∀ r ∈ l2, r.id ≠ e'.id := by
      intro r hr
      rw [he']
      exact hl2ne r hr
    have hupd2 : updateRowsById (l1 ++ e' :: l2) e'.id s k (normalize_to_month_start m) v =
        l1 ++ e' :: l2 := by
      rw [updateRowsById_append, updateRowsById_id_of_ne s k _ v hl1ne']
      congr 1
      unfold updateRowsById
      rw [List.map_cons]
      congr 1
      · simp [he']
      · exact updateRowsById_id_of_ne s k _ v hl2ne'
    have hl1r' : l1.filter (fun r => r.id == e'.id) = [] := by
      rw [List.filter_eq_nil_iff]
      intro r hr
      simpa using hl1ne' r hr
    have hresp2 : ((updateRowsById (l1 ++ e' :: l2) e'.id s k (normalize_to_month_start m)
        v).filter (fun r => r.id == e'.id)).isEmpty = false := by
      rw [hupd2, List.filter_append, hl1r', List.nil_append, List.filter_cons]
      simp
    have h2 := create_target_value_update_eq hsel2 hresp2
    rw [hupd2] at h2
    refine ⟨⟨l1 ++ e' :: l2, db.next_id⟩, ⟨e.id, false⟩,
      ⟨l1 ++ e' :: l2, db.next_id⟩, ⟨e'.id, false⟩, h1, h2, rfl, rfl, ?_, ?_⟩
    · rw [hfe1]
      rfl
    · intro r hr
      rw [hfe1] at hr
      have : r = e' := List.mem_singleton.mp hr
      rw [this, he']

/-- Witness for C2: two upserts of ("s1", "k1", 2024-11-05, 120) into the
empty fact table. -/
theorem create_target_value_idempotent_witness :
    ∃ db1 r1 db2 r2,
      create_target_value ⟨[], 0⟩ none "s1" "k1" ⟨2024, 11, 5⟩ 120 = Except.ok (db1, r1) ∧
      create_target_value db1 none "s1" "k1" ⟨2024, 11, 5⟩ 120 = Except.ok (db2, r2) ∧
      r2.is_created = false ∧ db2.rows = db1.rows ∧
      (db1.rows.filter (fun r =>
        matchesTargetKey r "s1" "k1" (normalize_to_month_start ⟨2024, 11, 5⟩))).length = 1 ∧
      ∀ r ∈ db1.rows.filter (fun r =>
        matchesTargetKey r "s1" "k1" (normalize_to_month_start ⟨2024, 11, 5⟩)),
        r.value = 120 :=
  create_target_value_idempotent ⟨[], 0⟩ "s1" "k1" ⟨2024, 11, 5⟩ 120
    (by constructor <;> simp [FactTable.WellFormed])
    (by intro s k m; simp [FactTable.UniqueIdentity])

/-! ## Helper lemmas for the bulk upsert -/

lemma bulkStep_shift (db : FactTable) (c u : Nat) (es : List String)
    (p : Option String × TargetInput) :
    bulkStep (db, ⟨c, u, es⟩) p =
      ((bulkStep (db, ⟨0, 0, []⟩) p).1,
       ⟨c + (bulkStep (db, ⟨0, 0, []⟩) p).2.created_count,
        u + (bulkStep (db, ⟨0, 0, []⟩) p).2.updated_count,
        es ++ (bulkStep (db, ⟨0, 0, []⟩) p).2.errors⟩) := by
  simp only [bulkStep]
  cases h : create_target_value db p.1 p.2.segment_id p.2.kpi_id p.2.month p.2.value with
  | ok q =>
    obtain ⟨db2, res⟩ := q
    cases hb : res.is_created <;> simp [hb]
  | error e => simp

lemma bulkStep_counts (db : FactTable) (p : Option String × TargetInput) :
    (bulkStep (db, ⟨0, 0, []⟩) p).2.created_count +
      (bulkStep (db, ⟨0, 0, []⟩) p).2.updated_count +
      (bulkStep (db, ⟨0, 0, []⟩) p).2.errors.length = 1 := by
  simp only [bulkStep]
  cases h : create_target_value db p.1 p.2.segment_id p.2.kpi_id p.2.month p.2.value with
  | ok q =>
    obtain ⟨db2, res⟩ := q
    cases hb : res.is_created <;> simp [hb]
  | error e => simp

lemma bulkFold_shift :
    ∀ (ts : List (Option String × TargetInput)) (db : FactTable) (c u : Nat)
      (es : List String),
      ts.foldl bulkStep (db, ⟨c, u, es⟩) =
        ((ts.foldl bulkStep (db, ⟨0, 0, []⟩)).1,
         ⟨c + (ts.foldl bulkStep (db, ⟨0, 0, []⟩)).2.created_count,
          u + (ts.foldl bulkStep (db, ⟨0, 0, []⟩)).2.updated_count,
          es ++ (ts.foldl bulkStep (db, ⟨0, 0, []⟩)).2.errors⟩) := by
  intro ts
  induction ts with
  | nil => intro db c u es; simp
  | cons p ts ih =>
    intro db c u es
    rw [List.foldl_cons, List.foldl_cons, bulkStep_shift]
    rcases hq : bulkStep (db, ⟨0, 0, []⟩) p with ⟨db1, c0, u0, e0⟩
    dsimp only
    rw [ih db1 (c + c0) (u + u0) (es ++ e0), ih db1 c0 u0 e0]
    dsimp only
    rw [Nat.add_assoc, Nat.add_assoc, List.append_assoc]

/-! C3 theorems -/

/-- C3: the bulk upsert processes rows independently: the report counts
always sum to the number of input rows; a failing row contributes exactly
its formatted error message, leaves the table and the counts untouched,
and does not stop later rows; a non-failing row never raises, is committed
through the single-row upsert, and bumps exactly its created/updated
counter. -/
theorem bulk_upsert_targets_per_row :
    (∀ (db : FactTable) (targets : List (Option String × TargetInput)),
      (bulk_upsert_targets db targets).2.created_count +
        (bulk_upsert_targets db targets).2.updated_count +
        (bulk_upsert_targets db targets).2.errors.length = targets.length) ∧
    (∀ (db : FactTable) (msg : String) (t : TargetInput)
        (rest : List (Option String × TargetInput)),
      (bulk_upsert_targets db ((some msg, t) :: rest)).1 =
        (bulk_upsert_targets db rest).1 ∧
      (bulk_upsert_targets db ((some msg, t) :: rest)).2.created_count =
        (bulk_upsert_targets db rest).2.created_count ∧
      (bulk_upsert_targets db ((some msg, t) :: rest)).2.updated_count =
        (bulk_upsert_targets db rest).2.updated_count ∧
      (bulk_upsert_targets db ((some msg, t) :: rest)).2.errors =
        ("店舗 " ++ t.segment_id ++ ", KPI " ++ t.kpi_id ++ ": " ++ msg) ::
          (bulk_upsert_targets db rest).2.errors) ∧
    (∀ (db : FactTable) (t : TargetInput),
      ∃ p, create_target_value db none t.segment_id t.kpi_id t.month t.value =
        Except.ok p) ∧
    (∀ (db : FactTable) (t : TargetInput) (rest : List (Option String × TargetInput))
        (db2 : FactTable) (res : CreateResult),
      create_target_value db none t.segment_id t.kpi_id t.month t.value =
          Except.ok (db2, res) →
      res.is_created = true →
      (bulk_upsert_targets db ((none, t) :: rest)).1 =
        (bulk_upsert_targets db2 rest).1 ∧
      (bulk_upsert_targets db ((none, t) :: rest)).2.created_count =
        (bulk_upsert_targets db2 rest).2.created_count + 1 ∧
      (bulk_upsert_targets db ((none, t) :: rest)).2.updated_count =
        (bulk_upsert_targets db2 rest).2.updated_count ∧
      (bulk_upsert_targets db ((none, t) :: rest)).2.errors =
        (bulk_upsert_targets db2 rest).2.errors) ∧
    (∀ (db : FactTable) (t : TargetInput) (rest : List (Option String × TargetInput))
        (db2 : FactTable) (res : CreateResult),
      create_target_value db none t.segment_id t.kpi_id t.month t.value =
          Except.ok (db2, res) →
      res.is_created = false →
      (bulk_upsert_targets db ((none, t) :: rest)).1 =
        (bulk_upsert_targets db2 rest).1 ∧
      (bulk_upsert_targets db ((none, t) :: rest)).2.created_count =
        (bulk_upsert_targets db2 rest).2.created_count ∧
      (bulk_upsert_targets db ((none, t) :: rest)).2.updated_count =
        (bulk_upsert_targets db2 rest).2.updated_count + 1 ∧
      (bulk_upsert_targets db ((none, t) :: rest)).2.errors =
        (bulk_upsert_targets db2 rest).2.errors) := by
  refine ⟨?_, ?_, ?_, ?_, ?_⟩
  · intro db targets
    induction targets generalizing db with
    | nil => rfl
    | cons p ts ih =>
      have hstep : bulk_upsert_targets db (p :: ts) =
          ts.foldl bulkStep (bulkStep (db, ⟨0, 0, []⟩) p) := by
        simp only [bulk_upsert_targets, List.foldl_cons]
      have hcnt := bulkStep_counts db p
      rcases hq : bulkStep (db, ⟨0, 0, []⟩) p with ⟨db1, c0, u0, e0⟩
      rw [hq] at hcnt hstep
      dsimp only at hcnt
      rw [bulkFold_shift ts db1 c0 u0 e0] at hstep
      have hih := ih db1
      simp only [bulk_upsert_targets] at hih
      rw [hstep]
      dsimp only
      simp only [List.length_append, List.length_cons]
      omega
  · intro db msg t rest
    have hbs : bulkStep (db, ⟨0, 0, []⟩) (some msg, t) =
        (db, ⟨0, 0, ["店舗 " ++ t.segment_id ++ ", KPI " ++ t.kpi_id ++ ": " ++ msg]⟩) := by
      simp only [bulkStep, create_target_value]
      simp
    have hstep : bulk_upsert_targets db ((some msg, t) :: rest) =
        rest.foldl bulkStep
          (db, ⟨0, 0, ["店舗 " ++ t.segment_id ++ ", KPI " ++ t.kpi_id ++ ": " ++ msg]⟩) := by
      simp only [bulk_upsert_targets, List.foldl_cons, hbs]
    rw [hstep, bulkFold_shift]
    exact ⟨rfl, Nat.zero_add _, Nat.zero_add _, List.singleton_append⟩
  · intro db t
    exact create_target_value_none_ok db t.segment_id t.kpi_id t.month t.value
  · intro db t rest db2 res hok hb
    have hbs : bulkStep (db, ⟨0, 0, []⟩) (none, t) = (db2, ⟨1, 0, []⟩) := by
      simp only [bulkStep]
      rw [hok]
      simp [hb]
    have hstep : bulk_upsert_targets db ((none, t) :: rest) =
        rest.foldl bulkStep (db2, ⟨1, 0, []⟩) := by
      simp only [bulk_upsert_targets, List.foldl_cons, hbs]
    rw [hstep, bulkFold_shift]
    exact ⟨rfl, Nat.add_comm 1 _, Nat.zero_add _, List.nil_append _⟩
  · intro db t rest db2 res hok hb
    have hbs : bulkStep (db, ⟨0, 0, []⟩) (none, t) = (db2, ⟨0, 1, []⟩) := by
      simp only [bulkStep]
      rw [hok]
      simp [hb]
    have hstep : bulk_upsert_targets db ((none, t) :: rest) =
        rest.foldl bulkStep (db2, ⟨0, 1, []⟩) := by
      simp only [bulk_upsert_targets, List.foldl_cons, hbs]
    rw [hstep, bulkFold_shift]
    exact ⟨rfl, Nat.zero_add _, Nat.add_comm 1 _, List.nil_append _⟩

/-- Witness for C3's success clause at a concrete one-row batch on the
empty table. -/
theorem bulk_upsert_targets_per_row_witness :
    (bulk_upsert_targets ⟨[], 0⟩ [(none, ⟨"s1", "k1", ⟨2024, 11, 5⟩, 120⟩)]).1 =
      (bulk_upsert_targets
        ⟨[⟨0, "s1", "k1", normalize_to_month_start ⟨2024, 11, 5⟩, 120, true⟩], 1⟩ []).1 ∧
    (bulk_upsert_targets ⟨[], 0⟩ [(none, ⟨"s1", "k1", ⟨2024, 11, 5⟩, 120⟩)]).2.created_count =
      (bulk_upsert_targets
        ⟨[⟨0, "s1", "k1", normalize_to_month_start ⟨2024, 11, 5⟩, 120, true⟩], 1⟩
        []).2.created_count + 1 ∧
    (bulk_upsert_targets ⟨[], 0⟩ [(none, ⟨"s1", "k1", ⟨2024, 11, 5⟩, 120⟩)]).2.updated_count =
      (bulk_upsert_targets
        ⟨[⟨0, "s1", "k1", normalize_to_month_start ⟨2024, 11, 5⟩, 120, true⟩], 1⟩
        []).2.updated_count ∧
    (bulk_upsert_targets ⟨[], 0⟩ [(none, ⟨"s1", "k1", ⟨2024, 11, 5⟩, 120⟩)]).2.errors =
      (bulk_upsert_targets
        ⟨[⟨0, "s1", "k1", normalize_to_month_start ⟨2024, 11, 5⟩, 120, true⟩], 1⟩
        []).2.errors :=
  bulk_upsert_targets_per_row.2.2.2.1 ⟨[], 0⟩ ⟨"s1", "k1", ⟨2024, 11, 5⟩, 120⟩ []
    ⟨[⟨0, "s1", "k1", normalize_to_month_start ⟨2024, 11, 5⟩, 120, true⟩], 1⟩
    ⟨0, true⟩ (by rfl) rfl

/-! ## Helper lemmas for the regional rollup -/

lemma mem_dset {α : Type} {d : List (String × α)} {k : String} {v : α} {q : String × α}
    (hq : q ∈ dset d k v) : q.1 = k ∨ q ∈ d := by
  unfold dset at hq
  by_cases hc : d.any (fun p => p.1 == k)
  · rw [if_pos hc] at hq
    obtain ⟨p, hp, hpq⟩ := List.mem_map.mp hq
    by_cases hpk : (p.1 == k) = true
    · rw [if_pos hpk] at hpq
      left
      rw [← hpq]
    · rw [if_neg hpk] at hpq
      right
      rw [← hpq]
      exact hp
  · rw [if_neg hc] at hq
    rcases List.mem_append.mp hq with h | h
    · exact Or.inr h
    · left
      rw [List.mem_singleton.mp h]

lemma mem_buildDict_keys {α : Type} :
    ∀ (pairs : List (String × α)) (d : List (String × α)) (q : String × α),
      q ∈ pairs.foldl (fun d p => dset d p.1 p.2) d →
      q ∈ d ∨ q.1 ∈ pairs.map (fun p => p.1) := by
  intro pairs
  induction pairs with
  | nil => intro d q hq; exact Or.inl hq
  | cons p ps ih =>
    intro d q hq
    rw [List.foldl_cons] at hq
    rcases ih (dset d p.1 p.2) q hq with h | h
    · rcases mem_dset h with h' | h'
      · right
        rw [List.map_cons, h']
        exact List.mem_cons_self _ _
      · exact Or.inl h'
    · right
      rw [List.map_cons]
      exact List.mem_cons_of_mem _ h

lemma dget_eq_none_of_no_key {α : Type} {pairs : List (String × α)} {k : String}
    (h : ∀ p ∈ pairs, p.1 ≠ k) : dget (buildDict pairs) k = none := by
  unfold dget
  rw [Option.map_eq_none']
  rw [List.find?_eq_none]
  intro q hq
  have := mem_buildDict_keys pairs [] q hq
  simp only [List.not_mem_nil, false_or] at this
  obtain ⟨p, hp, hpk⟩ := List.mem_map.mp this
  have : q.1 ≠ k := hpk ▸ h p hp
  simpa using this

lemma initRegionalData_empty (regions : List Region) (ρ : String) :
    ((initRegionalData regions) ρ).stores = [] ∧
    ((initRegionalData regions) ρ).total_sales = 0 ∧
    ((initRegionalData regions) ρ).total_customers = 0 := by
  unfold initRegionalData
  suffices h : ∀ (L : List Region) (f : String → RegionAcc),
      (∀ x, (f x).stores = [] ∧ (f x).total_sales = 0 ∧ (f x).total_customers = 0) →
      ∀ x, ((L.foldl (fun f r => fun rid =>
          if rid = r.id then ⟨r.id, r.name, [], 0, 0, 0, 0⟩ else f rid) f) x).stores = [] ∧
        ((L.foldl _ f) x).total_sales = 0 ∧ ((L.foldl _ f) x).total_customers = 0 by
    exact h regions _ (fun x => ⟨rfl, rfl, rfl⟩) ρ
  intro L
  induction L with
  | nil => intro f hf x; exact hf x
  | cons r L ih =>
    intro f hf x
    rw [List.foldl_cons]
    refine ih _ ?_ x
    intro y
    by_cases hy : y = r.id <;> simp [hy, hf y]

lemma storeLoop_spec (ctx : RegionalCtx) :
    ∀ (L : List (String × Segment)) (rd : String → RegionAcc) (ρ : String),
      ρ ∈ regionKeys ctx →
      ((L.foldl (storeLoopStep ctx) rd) ρ).region_id = (rd ρ).region_id ∧
      ((L.foldl (storeLoopStep ctx) rd) ρ).region_name = (rd ρ).region_name ∧
      ((L.foldl (storeLoopStep ctx) rd) ρ).stores =
        (rd ρ).stores ++ (L.filter (fun q => routeOf ctx q.1 == some ρ)).map
          (fun q => storeDataOf ctx q.1 q.2.name) ∧
      ((L.foldl (storeLoopStep ctx) rd) ρ).total_sales =
        (rd ρ).total_sales + ((L.filter (fun q => routeOf ctx q.1 == some ρ)).map
          (fun q => dgetD ctx.store_sales q.1 0)).sum ∧
      ((L.foldl (storeLoopStep ctx) rd) ρ).total_customers =
        (rd ρ).total_customers + ((L.filter (fun q => routeOf ctx q.1 == some ρ)).map
          (fun q => dgetD ctx.store_customers q.1 0)).sum := by
  intro L
  induction L with
  | nil =>
    intro rd ρ hρ
    simp
  | cons p L ih =>
    intro rd ρ hρ
    rw [List.foldl_cons]
    cases hroute : routeOf ctx p.1 with
    | none =>
      have hstep : storeLoopStep ctx rd p = rd := by
        simp only [storeLoopStep]
        rw [hroute]
      have hfil : (p :: L).filter (fun q => routeOf ctx q.1 == some ρ) =
          L.filter (fun q => routeOf ctx q.1 == some ρ) := by
        rw [List.filter_cons]
        simp [hroute]
      rw [hstep, hfil]
      exact ih rd ρ hρ
    | some rid =>
      cases hc : (regionKeys ctx).contains rid with
      | true =>
        by_cases heq : ρ = rid
        · subst heq
          obtain ⟨hid, hname, hstores, hsales, hcust⟩ := ih (storeLoopStep ctx rd p) ρ hρ
          have hstep : (storeLoopStep ctx rd p) ρ =
              { rd ρ with
                stores := (rd ρ).stores ++ [storeDataOf ctx p.1 p.2.name]
                total_sales := (rd ρ).total_sales + dgetD ctx.store_sales p.1 0
                total_sales_previous_year :=
                  (rd ρ).total_sales_previous_year + dgetD ctx.store_sales_prev p.1 0
                total_customers :=
                  (rd ρ).total_customers + dgetD ctx.store_customers p.1 0
                total_customers_previous_year :=
                  (rd ρ).total_customers_previous_year +
                    dgetD ctx.store_customers_prev p.1 0 } := by
            simp only [storeLoopStep]
            rw [hroute]
            simp [hc, hρ]
          have hfil : (p :: L).filter (fun q => routeOf ctx q.1 == some ρ) =
              p :: L.filter (fun q => routeOf ctx q.1 == some ρ) := by
            rw [List.filter_cons]
            simp [hroute]
          rw [hstep] at hid hname hstores hsales hcust
          dsimp only at hid hname hstores hsales hcust
          rw [hfil, List.map_cons, List.map_cons, List.map_cons, List.sum_cons,
            List.sum_cons]
          refine ⟨hid, hname, ?_, ?_, ?_⟩
          · rw [hstores, List.append_assoc, List.singleton_append]
          · rw [hsales, add_assoc]
          · rw [hcust, add_assoc]
        · obtain ⟨hid, hname, hstores, hsales, hcust⟩ := ih (storeLoopStep ctx rd p) ρ hρ
          have hstep : (storeLoopStep ctx rd p) ρ = rd ρ := by
            simp only [storeLoopStep]
            rw [hroute]
            have hmemk : rid ∈ regionKeys ctx := List.mem_of_elem_eq_true hc
            simp [hmemk, heq]
          have hfil : (p :: L).filter (fun q => routeOf ctx q.1 == some ρ) =
              L.filter (fun q => routeOf ctx q.1 == some ρ) := by
            rw [List.filter_cons]
            have hne : ((some rid : Option String) == some ρ) = false := by
              simp
              exact fun h => heq h.symm
            simp [hroute, hne]
          rw [hstep] at hid hname hstores hsales hcust
          rw [hfil]
          exact ⟨hid, hname, hstores, hsales, hcust⟩
      | false =>
        have hstep : storeLoopStep ctx rd p = rd := by
          simp only [storeLoopStep]
          rw [hroute]
          have hmemk : rid ∉ regionKeys ctx := by
            intro h
            have hcontra : (regionKeys ctx).contains rid = true := List.elem_eq_true_of_mem h
            rw [hc] at hcontra
            exact Bool.false_ne_true hcontra
          simp [hmemk]
        have hne : rid ≠ ρ := by
          intro h
          rw [h] at hc
          have hmem : (regionKeys ctx).contains ρ = true := List.elem_eq_true_of_mem hρ
          rw [hc] at hmem
          exact Bool.false_ne_true hmem
        have hfil : (p :: L).filter (fun q => routeOf ctx q.1 == some ρ) =
            L.filter (fun q => routeOf ctx q.1 == some ρ) := by
          rw [List.filter_cons]
          simp [hroute, hne]
        rw [hstep, hfil]
        exact ih rd ρ hρ

lemma resultLoop_spec (ctx : RegionalCtx) (rd : String → RegionAcc) :
    ∀ (L : List Region) (g : GrandAcc),
      (L.foldl (resultLoopStep ctx rd) g).result_regions =
        g.result_regions ++ (L.filter (fun rg => !(rd rg.id).stores.isEmpty)).map
          (fun rg => regionOutOf ctx (rd rg.id) rg) ∧
      (L.foldl (resultLoopStep ctx rd) g).grand_total_sales =
        g.grand_total_sales + ((L.filter (fun rg => !(rd rg.id).stores.isEmpty)).map
          (fun rg => (rd rg.id).total_sales)).sum ∧
      (L.foldl (resultLoopStep ctx rd) g).grand_total_customers =
        g.grand_total_customers + ((L.filter (fun rg => !(rd rg.id).stores.isEmpty)).map
          (fun rg => (rd rg.id).total_customers)).sum := by
  intro L
  induction L with
  | nil =>
    intro g
    simp
  | cons rg L ih =>
    intro g
    rw [List.foldl_cons]
    cases hemp : (rd rg.id).stores.isEmpty with
    | true =>
      have hstep : resultLoopStep ctx rd g rg = g := by
        simp only [resultLoopStep]
        rw [hemp]
        simp
      have hfil : (rg :: L).filter (fun r => !(rd r.id).stores.isEmpty) =
          L.filter (fun r => !(rd r.id).stores.isEmpty) := by
        rw [List.filter_cons]
        simp [hemp]
      rw [hstep, hfil]
      exact ih g
    | false =>
      obtain ⟨hreg, hsales, hcust⟩ := ih (resultLoopStep ctx rd g rg)
      have hstep : resultLoopStep ctx rd g rg =
          { result_regions := g.result_regions ++ [regionOutOf ctx (rd rg.id) rg]
            grand_total_sales := g.grand_total_sales + (rd rg.id).total_sales
            grand_total_sales_previous_year :=
              g.grand_total_sales_previous_year + (rd rg.id).total_sales_previous_year
            grand_total_customers := g.grand_total_customers + (rd rg.id).total_customers
            grand_total_customers_previous_year :=
              g.grand_total_customers_previous_year +
                (rd rg.id).total_customers_previous_year } := by
        simp only [resultLoopStep]
        rw [hemp]
        simp
      have hfil : (rg :: L).filter (fun r => !(rd r.id).stores.isEmpty) =
          rg :: L.filter (fun r => !(rd r.id).stores.isEmpty) := by
        rw [List.filter_cons]
        simp [hemp]
      rw [hstep] at hreg hsales hcust
      dsimp only at hreg hsales hcust
      rw [hstep, hfil, List.map_cons, List.map_cons, List.map_cons, List.sum_cons,
        List.sum_cons]
      refine ⟨?_, ?_, ?_⟩
      · rw [hreg, List.append_assoc, List.singleton_append]
      · rw [hsales, add_assoc]
      · rw [hcust, add_assoc]

/-- C8: in a regional rollup whose regions master contains the designated
`"その他"` (unassigned) fallback region, a segment with no
store-region-mapping entry is routed to that bucket: its per-store sales
and customer aggregates are summands of the bucket's totals, the bucket
appears in the response carrying the segment's store row (the segment is
not dropped), and the grand total sums exactly the buckets of the
response, the fallback bucket among them. -/
theorem regional_summary_unassigned_included :
    ∀ (inp : RegionalInput) (sid : String) (seg : Segment) (u : Region),
      inp.regions.find? (fun r => r.name == "その他") = some u →
      (sid, seg) ∈ (mkRegionalCtx inp).segsDict →
      (∀ mp ∈ inp.mappings, mp.1 ≠ sid) →
      ((sid, seg) ∈ (mkRegionalCtx inp).segsDict.filter
        (fun q => routeOf (mkRegionalCtx inp) q.1 == some u.id)) ∧
      (storeLoop (mkRegionalCtx inp) u.id).total_sales =
        (((mkRegionalCtx inp).segsDict.filter
          (fun q => routeOf (mkRegionalCtx inp) q.1 == some u.id)).map
          (fun q => dgetD (mkRegionalCtx inp).store_sales q.1 0)).sum ∧
      (storeLoop (mkRegionalCtx inp) u.id).total_customers =
        (((mkRegionalCtx inp).segsDict.filter
          (fun q => routeOf (mkRegionalCtx inp) q.1 == some u.id)).map
          (fun q => dgetD (mkRegionalCtx inp).store_customers q.1 0)).sum ∧
      (∃ e ∈ (get_regional_summary inp).regions, e.region_id = u.id ∧
        e.region_name = u.name ∧ ∃ sd ∈ e.stores, sd.segment_id = sid) ∧
      (resultLoop (mkRegionalCtx inp) (storeLoop (mkRegionalCtx inp))).grand_total_sales =
        ((inp.regions.filter
          (fun rg => !(storeLoop (mkRegionalCtx inp) rg.id).stores.isEmpty)).map
          (fun rg => (storeLoop (mkRegionalCtx inp) rg.id).total_sales)).sum ∧
      (resultLoop (mkRegionalCtx inp)
          (storeLoop (mkRegionalCtx inp))).grand_total_customers =
        ((inp.regions.filter
          (fun rg => !(storeLoop (mkRegionalCtx inp) rg.id).stores.isEmpty)).map
          (fun rg => (storeLoop (mkRegionalCtx inp) rg.id).total_customers)).sum ∧
      u ∈ inp.regions.filter
        (fun rg => !(storeLoop (mkRegionalCtx inp) rg.id).stores.isEmpty) := by
  intro inp sid seg u hfind hmem hnomap
  have hctxreg : (mkRegionalCtx inp).regions = inp.regions := rfl
  have hctxmap : (mkRegionalCtx inp).segment_to_region = buildDict inp.mappings := rfl
  have huid : (mkRegionalCtx inp).unassigned_region_id = some u.id := by
    show (inp.regions.find? (fun r => r.name == "その他")).map (fun r => r.id) = some u.id
    rw [hfind]
    rfl
  have hnone : dget (mkRegionalCtx inp).segment_to_region sid = none := by
    rw [hctxmap]
    exact dget_eq_none_of_no_key hnomap
  have hroute : routeOf (mkRegionalCtx inp) sid = some u.id := by
    unfold routeOf
    rw [hnone]
    exact huid
  have humem : u ∈ inp.regions := List.mem_of_find?_eq_some hfind
  have hkey : u.id ∈ regionKeys (mkRegionalCtx inp) := by
    show u.id ∈ (mkRegionalCtx inp).regions.map (fun r => r.id)
    rw [hctxreg]
    exact List.mem_map_of_mem _ humem
  obtain ⟨hid0, hname0, hstores0, hsales0, hcust0⟩ :=
    storeLoop_spec (mkRegionalCtx inp) (mkRegionalCtx inp).segsDict
      (initRegionalData (mkRegionalCtx inp).regions) u.id hkey
  obtain ⟨hinit_st, hinit_ts, hinit_tc⟩ :=
    initRegionalData_empty (mkRegionalCtx inp).regions u.id
  rw [hinit_st, List.nil_append] at hstores0
  rw [hinit_ts, zero_add] at hsales0
  rw [hinit_tc, zero_add] at hcust0
  have hmemfil : (sid, seg) ∈ (mkRegionalCtx inp).segsDict.filter
      (fun q => routeOf (mkRegionalCtx inp) q.1 == some u.id) :=
    List.mem_filter.mpr ⟨hmem, by simp [hroute]⟩
  have hsd : storeDataOf (mkRegionalCtx inp) sid seg.name ∈
      (storeLoop (mkRegionalCtx inp) u.id).stores := by
    show storeDataOf (mkRegionalCtx inp) sid seg.name ∈
      (((mkRegionalCtx inp).segsDict.foldl (storeLoopStep (mkRegionalCtx inp))
        (initRegionalData (mkRegionalCtx inp).regions)) u.id).stores
    rw [hstores0]
    exact List.mem_map_of_mem _ hmemfil
  have hnonempty : (storeLoop (mkRegionalCtx inp) u.id).stores.isEmpty = false :=
    List.isEmpty_eq_false_iff_exists_mem.mpr ⟨_, hsd⟩
  obtain ⟨hreg, hgs, hgc⟩ :=
    resultLoop_spec (mkRegionalCtx inp) (storeLoop (mkRegionalCtx inp))
      (mkRegionalCtx inp).regions ⟨[], 0, 0, 0, 0⟩
  dsimp only at hreg hgs hgc
  rw [List.nil_append] at hreg
  rw [zero_add] at hgs hgc
  have hufil : u ∈ (mkRegionalCtx inp).regions.filter
      (fun rg => !(storeLoop (mkRegionalCtx inp) rg.id).stores.isEmpty) := by
    refine List.mem_filter.mpr ⟨?_, ?_⟩
    · rw [hctxreg]
      exact humem
    · simp [hnonempty]
  refine ⟨hmemfil, hsales0, hcust0, ?_, hgs, hgc, hufil⟩
  refine ⟨regionOutOf (mkRegionalCtx inp) (storeLoop (mkRegionalCtx inp) u.id) u,
    ?_, rfl, rfl, ?_⟩
  · show regionOutOf (mkRegionalCtx inp) (storeLoop (mkRegionalCtx inp) u.id) u ∈
      (resultLoop (mkRegionalCtx inp) (storeLoop (mkRegionalCtx inp))).result_regions
    show regionOutOf (mkRegionalCtx inp) (storeLoop (mkRegionalCtx inp) u.id) u ∈
      ((mkRegionalCtx inp).regions.foldl
        (resultLoopStep (mkRegionalCtx inp) (storeLoop (mkRegionalCtx inp)))
        ⟨[], 0, 0, 0, 0⟩).result_regions
    rw [hreg]
    exact List.mem_map_of_mem _ hufil
  · exact ⟨storeDataOf (mkRegionalCtx inp) sid seg.name, hsd, rfl⟩

/-- Witness for C8: one unmapped segment, one "その他" region, no fact
rows; the response contains the fallback bucket with the segment's row. -/
theorem regional_summary_unassigned_included_witness :
    ∃ e ∈ (get_regional_summary ⟨[⟨"r1", "その他"⟩], [⟨"s1", "三股店"⟩], [], some "ks",
        some "kc", [], [], []⟩).regions,
      e.region_id = "r1" ∧ e.region_name = "その他" ∧
        ∃ sd ∈ e.stores, sd.segment_id = "s1" :=
  (regional_summary_unassigned_included
    ⟨[⟨"r1", "その他"⟩], [⟨"s1", "三股店"⟩], [], some "ks", some "kc", [], [], []⟩
    "s1" ⟨"s1", "三股店"⟩ ⟨"r1", "その他"⟩ rfl (by decide)
    (by intro mp hmp; exact absurd hmp (List.not_mem_nil _))).2.2.2.1

end KpiDash

